import Mathlib

/-!
# App_options: the per-call option checks of `app_options.c`

A shallow embedding of `src/src/app_options.c` (the Asterisk application
`Options`) and theorems about it.

Modelling conventions.

* C strings are `String`s (no embedded NUL); a `char *` that the code never
  tests against NULL is a plain `String`.
* The MySQL server is seen through `MYSQL_query`: a statement either fails
  (`mysql_errno` non-zero, row count `-1`) or yields the rows that the SQL text
  written in the source selects from the tables.  Each `sprintf`-built
  statement is kept as a constructor of `Query` that carries the values
  substituted for its `%s`/`%d` holes; the values are taken to be free of SQL
  metacharacters, so that the statement means what its text says.
* Identifiers (`UserID`, `GroupID`) are kept as the text the server prints for
  them; the account code of a channel is such a text and is compared with them
  as text.  The caller id number comes from the caller and reaches a statement
  only as a bare string of digits (`UserID=%s` after `is_string_digits`): it is
  a number to the server and is compared with `UserID` as a number
  (`sql_number`).  A numeric column is kept as the integer it prints, on which
  `atoi` is the identity; table sizes stay below `2^31`.
* A function whose C behaviour is undefined on some path (NULL row, read or
  write outside a buffer) returns `none` on that path.
* The statement buffers (`queryString[512]`) are taken to be large enough for
  the values printed into them.
* What a function does to the channel and to the outside (statements sent,
  hangup, recording) is threaded through a `World`.
-/

namespace AppOptions

/-! ## C library helpers -/

/-- C `isdigit` in the "C" locale. -/
def isdigit (c : Char) : Bool :=
  decide ('0'.toNat ≤ c.toNat ∧ c.toNat ≤ '9'.toNat)

/-- C `isspace` in the "C" locale. -/
def isspace (c : Char) : Bool :=
  c = ' ' || c = '\t' || c = '\n' || c = '\x0b' || c = '\x0c' || c = '\r'

/-- Digit loop of `atoi`: accumulate the leading decimal digits. -/
def atoi_digits (acc : Nat) : List Char → Nat
  | [] => acc
  | c :: cs => if isdigit c then atoi_digits (acc * 10 + (c.toNat - '0'.toNat)) cs else acc

/-- C `atoi` on a text: leading blanks, an optional sign, then decimal digits. -/
def atoi_text (s : String) : Int :=
  match s.data.dropWhile isspace with
  | '-' :: r => - (atoi_digits 0 r : Int)
  | '+' :: r => (atoi_digits 0 r : Int)
  | cs => (atoi_digits 0 cs : Int)

/-- Asterisk `ast_strlen_zero(s)`: the string is empty. -/
def ast_strlen_zero (s : String) : Bool :=
  s.data.isEmpty

/-- C `strlen`. -/
def strlen (s : String) : Nat :=
  s.data.length

/-- C `strcasecmp(a, b) == 0`: equal when letter case is ignored. -/
def strcasecmp_eq (a b : String) : Bool :=
  a.data.map Char.toLower == b.data.map Char.toLower

/-- C `strncmp(s, lit, n) == 0` for a literal `lit` of exactly `n` characters:
the first `n` characters of `s` are `lit`. -/
def strncmp_eq (s lit : String) (n : Nat) : Bool :=
  s.data.take n == lit.data.take n && decide (n ≤ lit.data.length)

/-- The pointer `s + k` read as a C string: defined while it stays within `s`,
terminator included. -/
def str_offset (s : String) (k : Int) : Option String :=
  if 0 ≤ k ∧ k ≤ (strlen s : Int) then some ⟨s.data.drop k.toNat⟩ else none

/-- C `strncpy(buffer, src, n)` into `char buffer[26]`, then `buffer` read back
with `%s`.  `n` is converted to `size_t`, so it must be non-negative; exactly
`n` bytes are written, so `n ≤ 26`; the copy is NUL-terminated only when `src`
is shorter than `n`. -/
def strncpy_buffer26 (src : String) (n : Int) : Option String :=
  if 0 ≤ n ∧ n ≤ 26 ∧ (strlen src : Int) < n then some src else none

/-! ## SQL `LIKE` -/

/-- Does `f` accept the text or one of its tails?  (What `%` may skip.) -/
def anyTail (f : List Char → Bool) : List Char → Bool
  | [] => f []
  | x :: t => f (x :: t) || anyTail f t

/-- Does the text start with a character accepted by `ok`, with the rest
accepted by `k`?  (What one pattern character consumes.) -/
def headThen (ok : Char → Bool) (k : List Char → Bool) : List Char → Bool
  | [] => false
  | x :: t => ok x && k t

/-- MySQL `text LIKE BINARY pattern` with the default escape character:
`%` stands for any run of characters, `_` for any one character, a backslash
makes the next pattern character literal, everything else stands for itself
(compared byte by byte, hence case-sensitively). -/
def likeMatch : List Char → List Char → Bool
  | [], t => t.isEmpty
  | c :: p, t =>
    if c = '%' then anyTail (likeMatch p) t
    else if c = '_' then headThen (fun _ => true) (likeMatch p) t
    else if c = '\\' then
      match p with
      | [] => t == ['\\']
      | d :: q => headThen (fun x => x == d) (likeMatch q) t
    else headThen (fun x => x == c) (likeMatch p) t

/-- The condition `'number' LIKE BINARY CONCAT(pfx, '%')` of the statements. -/
def like_prefix_pattern (number pfx : String) : Bool :=
  likeMatch (pfx.data ++ ['%']) number.data

/-- A pattern text without `%`, `_` or backslash: it stands for itself. -/
def wildcard_free (pfx : String) : Prop :=
  ∀ c ∈ pfx.data, c ≠ '%' ∧ c ≠ '_' ∧ c ≠ '\\'

instance (pfx : String) : Decidable (wildcard_free pfx) := by
  unfold wildcard_free; infer_instance

/-! ## Tables of the store -/

/-- Row of `users`. -/
structure UsersRow where
  UserID : String
  TenantID : Int
deriving DecidableEq

/-- Row of `options` (per-account flags). -/
structure OptionsRow where
  UserID : String
  cidIsAcode : Int
  Monitored : Int
  RCLI : Int
deriving DecidableEq

/-- Row of `group_user` (a membership link; `GUID` is the row's own key). -/
structure GroupUserRow where
  GUID : Nat
  UserID : String
  GroupID : String
deriving DecidableEq

/-- Row of `group_agent` (a group and its monitoring flag). -/
structure GroupAgentRow where
  GroupID : String
  monitored : Int
deriving DecidableEq

/-- Row of `blocked_prefix_group`; `pfx` is the column `prefix`. -/
structure BlockedPrefixGroupRow where
  GroupID : String
  pfx : String
deriving DecidableEq

/-- Row of `blocked_prefix_user`; `pfx` is the column `prefix`. -/
structure BlockedPrefixUserRow where
  UserID : String
  pfx : String
deriving DecidableEq

/-- Row of `prefix_in` (a translation rule); `pfx` is the column `prefix`,
`new_pfx` the column `new_prefix`. -/
structure PrefixInRow where
  pfx : String
  digit_delete : Int
  new_pfx : String
  TenantID : Int
deriving DecidableEq

/-- Row of `dids NATURAL JOIN didToUser`: a number of the pool and the account
it is assigned to. -/
structure DidRow where
  did : String
  userid : String
deriving DecidableEq

/-- One column of a result row, as `MYSQL_ROW` gives it. -/
inductive Cell where
  | int (v : Int)
  | text (s : String)
deriving DecidableEq

/-- C `atoi` applied to a column: `atoi(myrow[i])`. -/
def atoi : Cell → Int
  | .int v => v
  | .text s => atoi_text s

/-- The column printed with `%s`. -/
def Cell.str : Cell → String
  | .int v => toString v
  | .text s => s

/-- A `MYSQL_ROW`. -/
abbrev Row := List Cell

/-- Column `myrow[i]`; every row of a result has all the selected columns. -/
def Row.col (r : Row) (i : Nat) : Cell :=
  r.getD i (Cell.text "")

/-- The statements the application sends, with the values put in their holes. -/
inductive Query where
  /-- Statement `SELECT count(GUID) FROM group_user WHERE group_user.UserID=%s` -/
  | group_count (accountCode : String)
  /-- Statement `SELECT COUNT(DISTINCT(blocked_prefix_group.GroupID)) FROM blocked_prefix_group
  INNER JOIN group_user USING(GroupID) WHERE (group_user.UserID=%s) AND
  (SELECT '%s' LIKE BINARY CONCAT(blocked_prefix_group.prefix,'%'))` -/
  | blocking_group_count (accountCode formattedNumber : String)
  /-- Statement `SELECT blocked_prefix_user.prefix FROM blocked_prefix_user WHERE
  (blocked_prefix_user.UserID=%s) AND
  (SELECT '%s' LIKE BINARY CONCAT(blocked_prefix_user.prefix,'%'))` -/
  | user_block_rules (accountCode formattedNumber : String)
  /-- Statement `SELECT COUNT(GUID) FROM group_user INNER JOIN group_agent USING(GroupID)
  WHERE (group_user.UserID=%s) AND (group_agent.monitored=1);` -/
  | group_monitored_count (accountCode : String)
  /-- Statement `SELECT options.Monitored FROM options WHERE (options.UserId=%s);` -/
  | user_monitored (accountCode : String)
  /-- Statement `SELECT prefix_in.digit_delete, prefix_in.new_prefix FROM prefix_in WHERE
  ((SELECT '%s' LIKE BINARY CONCAT(prefix_in.prefix,'%') ) AND (prefix_in.TenantID=1))
  ORDER BY CHAR_LENGTH(prefix_in.prefix) DESC LIMIT 1` -/
  | translation_rule (destNumber : String)
  /-- Statement `SELECT options.cidIsAcode, users.TenantID FROM users INNER JOIN options
  USING(UserID) WHERE users.UserID='%s'` -/
  | trunk_asp_option (accountCode : String)
  /-- Statement `SELECT UserID FROM users WHERE (UserID=%s) AND (TenantID=%s)` -/
  | tenant_account (CallerIdNum : String) (TenantID : Cell)
  /-- Statement `SELECT options.RCLI, users.TenantID FROM users INNER JOIN options
  USING(UserID) WHERE users.UserID='%s'` -/
  | rcli_option (accountCode : String)
  /-- Statement `select did from dids NATURAL JOIN didToUser WHERe didToUser.userid = %s
  AND dids.did LIKE '0%d%%'` -/
  | pool_numbers (accountCode : String) (digit : Int)
deriving DecidableEq

/-- The connection `dbInfo->conn` seen from the application: the tables of the
server and, for each statement, whether sending it ends in an error. -/
structure database_configuration where
  users : List UsersRow
  options : List OptionsRow
  group_user : List GroupUserRow
  group_agent : List GroupAgentRow
  blocked_prefix_group : List BlockedPrefixGroupRow
  blocked_prefix_user : List BlockedPrefixUserRow
  prefix_in : List PrefixInRow
  dids : List DidRow
  failing : Query → Bool

/-! ## What the statements select -/

/-- Rows of `group_user` of one account: `WHERE group_user.UserID=%s`. -/
def memberships (db : database_configuration) (accountCode : String) : List GroupUserRow :=
  db.group_user.filter (fun m => m.UserID = accountCode)

/-- Rows of `blocked_prefix_group INNER JOIN group_user USING(GroupID)` kept by
`(group_user.UserID=%s) AND ('%s' LIKE BINARY CONCAT(prefix,'%'))`, projected on
`blocked_prefix_group.GroupID`. -/
def blocking_join (db : database_configuration) (accountCode formattedNumber : String) :
    List String :=
  db.blocked_prefix_group.flatMap (fun b =>
    (db.group_user.filter (fun m =>
      decide (b.GroupID = m.GroupID) && decide (m.UserID = accountCode)
        && like_prefix_pattern formattedNumber b.pfx)).map (fun _ => b.GroupID))

/-- Rows of `blocked_prefix_user` kept by
`(UserID=%s) AND ('%s' LIKE BINARY CONCAT(prefix,'%'))`. -/
def user_block_matches (db : database_configuration) (accountCode formattedNumber : String) :
    List BlockedPrefixUserRow :=
  db.blocked_prefix_user.filter (fun b =>
    decide (b.UserID = accountCode) && like_prefix_pattern formattedNumber b.pfx)

/-- Rows of `group_user INNER JOIN group_agent USING(GroupID)` kept by
`(group_user.UserID=%s) AND (group_agent.monitored=1)`, projected on `GUID`. -/
def monitored_join (db : database_configuration) (accountCode : String) : List Nat :=
  db.group_user.flatMap (fun m =>
    (db.group_agent.filter (fun a =>
      decide (m.GroupID = a.GroupID) && decide (m.UserID = accountCode)
        && decide (a.monitored = 1))).map (fun _ => m.GUID))

/-- Order of `ORDER BY CHAR_LENGTH(prefix_in.prefix) DESC`. -/
def longer_first (a b : PrefixInRow) : Prop :=
  b.pfx.length ≤ a.pfx.length

instance : DecidableRel longer_first := by
  intro a b; unfold longer_first; infer_instance

/-- Rows of `prefix_in` kept by
`('%s' LIKE BINARY CONCAT(prefix,'%')) AND (TenantID=1)`. -/
def translation_matches (db : database_configuration) (destNumber : String) : List PrefixInRow :=
  db.prefix_in.filter (fun r => like_prefix_pattern destNumber r.pfx && decide (r.TenantID = 1))

/-- The rule kept by `ORDER BY CHAR_LENGTH(prefix) DESC LIMIT 1`: the head of
the matching rules sorted longest first (rules of equal length stay in table
order). -/
def selected_rule (db : database_configuration) (destNumber : String) : Option PrefixInRow :=
  ((translation_matches db destNumber).insertionSort longer_first).head?

/-- Rows of `users INNER JOIN options USING(UserID)` kept by `users.UserID='%s'`. -/
def users_options_join (db : database_configuration) (accountCode : String) :
    List (UsersRow × OptionsRow) :=
  db.users.flatMap (fun u =>
    (db.options.filter (fun o =>
      decide (u.UserID = o.UserID) && decide (u.UserID = accountCode))).map (fun o => (u, o)))

/-- The number the server reads in a text that is compared with a number: blanks,
an optional sign and the leading decimal digits, `0` when there is none.  A bare
digit string printed into a statement is the number it writes, whatever its
leading zeros. -/
def sql_number (s : String) : Int :=
  atoi_text s

/-- MySQL `text LIKE pattern` under the default collation: as `likeMatch`, letter
case ignored. -/
def likeMatch_ci (pattern text : String) : Bool :=
  likeMatch (pattern.data.map Char.toLower) (text.data.map Char.toLower)

/-- Result set of a statement that does not fail. -/
def select (db : database_configuration) : Query → List Row
  | .group_count accountCode =>
      [[Cell.int (memberships db accountCode).length]]
  | .blocking_group_count accountCode formattedNumber =>
      [[Cell.int (blocking_join db accountCode formattedNumber).dedup.length]]
  | .user_block_rules accountCode formattedNumber =>
      (user_block_matches db accountCode formattedNumber).map (fun b => [Cell.text b.pfx])
  | .group_monitored_count accountCode =>
      [[Cell.int (monitored_join db accountCode).length]]
  | .user_monitored accountCode =>
      (db.options.filter (fun o => o.UserID = accountCode)).map (fun o => [Cell.int o.Monitored])
  | .translation_rule destNumber =>
      (selected_rule db destNumber).toList.map
        (fun r => [Cell.int r.digit_delete, Cell.text r.new_pfx])
  | .trunk_asp_option accountCode =>
      (users_options_join db accountCode).map
        (fun uo => [Cell.int uo.2.cidIsAcode, Cell.int uo.1.TenantID])
  | .tenant_account CallerIdNum TenantID =>
      (db.users.filter (fun u =>
        decide (sql_number u.UserID = sql_number CallerIdNum)
          && decide (Cell.int u.TenantID = TenantID))).map
        (fun u => [Cell.text u.UserID])
  | .rcli_option accountCode =>
      (users_options_join db accountCode).map
        (fun uo => [Cell.int uo.2.RCLI, Cell.int uo.1.TenantID])
  | .pool_numbers accountCode digit =>
      (db.dids.filter (fun d =>
        decide (d.userid = accountCode)
          && likeMatch_ci ("0" ++ toString digit ++ "%") d.did)).map
        (fun d => [Cell.text d.did])

/-! ## Channel, outside world -/

/-- The fields of `struct ast_channel` the application reads or writes. -/
structure Channel where
  name : String
  uniqueid : String
  accountcode : String
  /-- Field `caller.id.number.valid`. -/
  cid_num_valid : Bool
  /-- Field `caller.id.number.str`. -/
  cid_num : String
  /-- Field `caller.id.name.str`. -/
  cid_name : String
deriving DecidableEq

/-- What leaves the application, in the order it happens. -/
inductive Event where
  /-- A statement handed to `mysql_real_query`. -/
  | query (q : Query)
  /-- Call `ast_channel_softhangup_withcause_locked(c, causecode)` on the channel of that name. -/
  | softhangup (channel_name : String) (causecode : Nat)
  /-- Call `pbx_exec(chan, application, application_data)`. -/
  | pbx_exec (application : String) (application_data : String)
deriving DecidableEq

/-- The channel and the trace of events so far. -/
structure World where
  chan : Channel
  trace : List Event
deriving DecidableEq

/-- Append an event to the trace. -/
def World.emit (w : World) (e : Event) : World :=
  { w with trace := w.trace ++ [e] }

/-- What `MYSQL_query` hands back: `*numRows`, the stored result, the world after. -/
structure Fetched where
  numRows : Int
  myres : List Row
  world : World

/-- Source `MYSQL_query`: send the statement; on `mysql_errno` the row count is
`-1` and the result NULL, otherwise the row count is that of the stored result. -/
def MYSQL_query (querystring : Query) (dbInfo : database_configuration) (w : World) : Fetched :=
  if dbInfo.failing querystring then
    { numRows := -1, myres := [], world := w.emit (.query querystring) }
  else
    { numRows := (select dbInfo querystring).length, myres := select dbInfo querystring,
      world := w.emit (.query querystring) }

/-- The pair `mysql_data_seek(myres, i); mysql_fetch_row(myres)`: row `i`, NULL
when there is none. -/
def mysql_fetch_row_at (myres : List Row) (i : Nat) : Option Row :=
  myres.get? i

/-! ## Configuration and host -/

/-- Section `options` of `options.conf`. -/
structure option_configuration where
  dstPath : String
  host : String
  extension : String

/-- The global configuration object `cfg`. -/
structure option_global where
  dbCredentials : database_configuration
  options : option_configuration

/-- What the application asks of Asterisk and of libc during one call. -/
structure Host where
  /-- Does `pbx_findapp(name)` find an application? -/
  findapp : String → Bool
  /-- Does `ast_channel_get_by_name(name)` find a channel? -/
  channel_exists : String → Bool
  /-- Value of `time(&t)`. -/
  time : Nat
  /-- Value of the first `rand()` after `srand(seed)`. -/
  rand_after_srand : Nat → Nat
  /-- Text written by `get_formated_time_now`. -/
  dateTime : String

/-! ## The functions of `app_options.c` -/

/-- Source `dataSanityCheck`: `1` when the call is not to be processed. -/
def dataSanityCheck (chan : Channel) (data : String) : Int :=
  if ast_strlen_zero data then 1
  else if strlen data > 25 then 1
  else if strcasecmp_eq "OutgoingSpoolFailed" chan.name then 1
  else if strcasecmp_eq "s" data || strcasecmp_eq "h" data || strcasecmp_eq "t" data
      || strcasecmp_eq "i" data || strcasecmp_eq "failed" data then 1
  else if ast_strlen_zero chan.accountcode then 1
  else 0

/-- The `while` loop of `is_string_digits`. -/
def is_string_digits_loop : List Char → Int
  | [] => 0
  | c :: cs => if !isdigit c then 1 else is_string_digits_loop cs

/-- Source `is_string_digits`: `0` when the string is non-empty and all digits,
`1` otherwise. -/
def is_string_digits (data : String) : Int :=
  if ast_strlen_zero data then 1 else is_string_digits_loop data.data

/-- Asterisk `S_COR(a, b, c)`: `b` when `a` holds and `b` is not empty, else `c`. -/
def S_COR (a : Bool) (b c : String) : String :=
  if a && !ast_strlen_zero b then b else c

/-- Source `is_trunked_asp_account`: with the option "Trunk ASP" on, the caller
id number names the account; the account code of the channel is replaced by
the `UserID` found for it in the tenant. -/
def is_trunked_asp_account (w : World) (dbInfo : database_configuration) :
    Option (Int × World) :=
  let accountCode := w.chan.accountcode
  let r := MYSQL_query (.trunk_asp_option accountCode) dbInfo w
  if r.numRows < 1 then some (1, r.world)
  else
    match mysql_fetch_row_at r.myres 0 with
    | none => none
    | some myrow =>
      if atoi (myrow.col 0) = 1 then
        let CallerIdNum := S_COR r.world.chan.cid_num_valid r.world.chan.cid_num "<Unknown>"
        if is_string_digits CallerIdNum ≠ 0 then some (1, r.world)
        else
          let r2 := MYSQL_query (.tenant_account CallerIdNum (myrow.col 1)) dbInfo r.world
          if r2.numRows < 1 then some (1, r2.world)
          else
            match mysql_fetch_row_at r2.myres 0 with
            | none => none
            | some myrow2 =>
              some (0, { r2.world with
                chan := { r2.world.chan with accountcode := (myrow2.col 0).str } })
      else some (0, r.world)

/-- The last block of `is_prefix_bloqued` ("Check for user's prohibitions"). -/
def is_prefix_bloqued_user (w : World) (formattedNumber : String)
    (dbInfo : database_configuration) : Option (Int × World) :=
  let accountCode := w.chan.accountcode
  let r := MYSQL_query (.user_block_rules accountCode formattedNumber) dbInfo w
  if r.numRows < 0 then some (1, r.world)
  else if r.numRows ≠ 0 then
    match mysql_fetch_row_at r.myres 0 with
    | none => none
    | some _ => some (1, r.world)
  else some (0, r.world)

/-- Source `is_prefix_bloqued`: `1` when the destination is blocked for the
account of the channel, `0` when it is allowed. -/
def is_prefix_bloqued (w : World) (formattedNumber : String) (dbInfo : database_configuration) :
    Option (Int × World) :=
  let accountCode := w.chan.accountcode
  let r := MYSQL_query (.group_count accountCode) dbInfo w
  if r.numRows < 0 then some (1, r.world)
  else
    match mysql_fetch_row_at r.myres 0 with
    | none => none
    | some myrow =>
      let groupNumbers := atoi (myrow.col 0)
      if groupNumbers = 0 then some (1, r.world)
      else
        let r2 := MYSQL_query (.blocking_group_count accountCode formattedNumber) dbInfo r.world
        if r2.numRows < 0 then some (1, r2.world)
        else if r2.numRows ≠ 0 then
          match mysql_fetch_row_at r2.myres 0 with
          | none => none
          | some myrow2 =>
            if groupNumbers = atoi (myrow2.col 0) then some (1, r2.world)
            else is_prefix_bloqued_user r2.world formattedNumber dbInfo
        else is_prefix_bloqued_user r2.world formattedNumber dbInfo

/-- Source `forceHangup`: soft hangup, cause 11, of the channel of that name. -/
def forceHangup (host : Host) (channel_name : String) (w : World) : Int × World :=
  if ast_strlen_zero channel_name then (0, w)
  else if !host.channel_exists channel_name then (0, w)
  else (0, w.emit (.softhangup channel_name 11))

/-- Source `isCallMonitored`: `1` when the call must be recorded. -/
def isCallMonitored (w : World) (dbInfo : database_configuration) : Option (Int × World) :=
  let accountCode := w.chan.accountcode
  let r := MYSQL_query (.group_monitored_count accountCode) dbInfo w
  if r.numRows > -1 ∧ r.numRows ≠ 0 then
    match mysql_fetch_row_at r.myres 0 with
    | none => none
    | some myrow =>
      if atoi (myrow.col 0) > 0 then some (1, r.world)
      else
        let r2 := MYSQL_query (.user_monitored accountCode) dbInfo r.world
        if r2.numRows > -1 ∧ r2.numRows ≠ 0 then
          match mysql_fetch_row_at r2.myres 0 with
          | none => none
          | some myrow2 =>
            if atoi (myrow2.col 0) > 0 then some (1, r2.world) else some (0, r2.world)
        else some (0, r2.world)
  else some (0, r.world)

/-- Source `recordCall`: run `MixMonitor`, or `Monitor` when it is missing;
`application_data` is a buffer of 128 bytes. -/
def recordCall (host : Host) (w : World) (conf : option_configuration) : Option World :=
  let uniqueid := w.chan.uniqueid
  if !host.findapp "MixMonitor" then
    if !host.findapp "Monitor" then some w
    else
      let application_data := "wav49|" ++ conf.host ++ "-" ++ uniqueid ++ "|m"
      if strlen application_data < 128 then
        some (w.emit (.pbx_exec "Monitor" application_data))
      else none
  else
    let application_data :=
      conf.dstPath ++ "/" ++ uniqueid ++ "-" ++ host.dateTime ++ "." ++ conf.extension ++ ",b,"
    if strlen application_data < 128 then
      some (w.emit (.pbx_exec "MixMonitor" application_data))
    else none

/-- Source `get_international_number`: the text written to `formattedNumber`. -/
def get_international_number (destNumber : String) (dbInfo : database_configuration)
    (w : World) : Option (String × World) :=
  let r := MYSQL_query (.translation_rule destNumber) dbInfo w
  if r.numRows < 0 then some (destNumber, r.world)
  else if r.numRows ≠ 0 then
    match mysql_fetch_row_at r.myres 0 with
    | none => none
    | some myrow =>
      match (str_offset destNumber (atoi (myrow.col 0))).bind
              (fun src => strncpy_buffer26 src (26 - atoi (myrow.col 0))) with
      | none => none
      | some buffer => some ((myrow.col 1).str ++ buffer, r.world)
  else some (destNumber, r.world)

/-- Source `isRcliOnCountryEnabled`: `1` when the option RCLI of the account is on. -/
def isRcliOnCountryEnabled (w : World) (dbInfo : database_configuration) :
    Option (Int × World) :=
  let accountCode := w.chan.accountcode
  let r := MYSQL_query (.rcli_option accountCode) dbInfo w
  if r.numRows < 1 then some (0, r.world)
  else
    match mysql_fetch_row_at r.myres 0 with
    | none => none
    | some myrow => if atoi (myrow.col 0) ≠ 0 then some (1, r.world) else some (0, r.world)

/-- The character `s[i]` as an `int`; the terminator when `i` is the length. -/
def char_at (s : String) (i : Nat) : Int :=
  match s.data.get? i with
  | some c => (c.toNat : Int)
  | none => 0

/-- Source `startRcliOnCountry`: for a number starting with `33`, present one of
the numbers of the account that start with `0` and the digit after `33`. -/
def startRcliOnCountry (host : Host) (w : World) (formattedNumber : String)
    (dbInfo : database_configuration) : Option World :=
  let accountCode := w.chan.accountcode
  if strncmp_eq formattedNumber "33" 2 then
    let digit : Int := char_at formattedNumber 2 - ('0'.toNat : Int)
    let r := MYSQL_query (.pool_numbers accountCode digit) dbInfo w
    if r.numRows < 1 then some r.world
    else
      let sdaToChoosePrefix := (host.rand_after_srand (host.time % 2 ^ 32) : Int) % r.numRows
      match mysql_fetch_row_at r.myres sdaToChoosePrefix.toNat with
      | none => none
      | some myrow =>
        some { r.world with
          chan := { r.world.chan with
            cid_num := (myrow.col 0).str, cid_name := (myrow.col 0).str } }
  else some w

/-- Source `app_exec`: the entry point, run once per call; `formattedNumber` is a
buffer of 26 bytes. -/
def app_exec (host : Host) (cfg : option_global) (w : World) (data : String) :
    Option (Int × World) :=
  if dataSanityCheck w.chan data ≠ 0 then some (-1, w)
  else do
    let (formattedNumber, w1) ← get_international_number data cfg.dbCredentials w
    if ¬ strlen formattedNumber < 26 then none
    let (_, w2) ← is_trunked_asp_account w1 cfg.dbCredentials
    let (blocked, w3) ← is_prefix_bloqued w2 formattedNumber cfg.dbCredentials
    let w4 := if blocked ≠ 0 then (forceHangup host w3.chan.name w3).2 else w3
    let (monitored, w5) ← isCallMonitored w4 cfg.dbCredentials
    let w6 ← if monitored ≠ 0 then recordCall host w5 cfg.options else some w5
    let (rcli, w7) ← isRcliOnCountryEnabled w6 cfg.dbCredentials
    let w8 ← if rcli ≠ 0 then startRcliOnCountry host w7 formattedNumber cfg.dbCredentials
             else some w7
    some (0, w8)

/-! ## Notions used by the statements -/

instance : IsTotal PrefixInRow longer_first :=
  ⟨fun a b => by unfold longer_first; exact Nat.le_total _ _⟩

instance : IsTrans PrefixInRow longer_first :=
  ⟨fun a b c hab hbc => by unfold longer_first at *; exact Nat.le_trans hbc hab⟩

/-- The value a function returns, the world put aside. -/
def returned {α : Type} (r : Option (α × World)) : Option α :=
  r.map Prod.fst

/-- The groups an account belongs to, one entry per membership row. -/
def groups_of (db : database_configuration) (accountCode : String) : List String :=
  (memberships db accountCode).map (fun m => m.GroupID)

/-- Group `g` holds a block rule whose pattern matches the number. -/
def group_blocks (db : database_configuration) (g formattedNumber : String) : Prop :=
  ∃ b ∈ db.blocked_prefix_group,
    b.GroupID = g ∧ like_prefix_pattern formattedNumber b.pfx = true

instance (db : database_configuration) (g n : String) : Decidable (group_blocks db g n) := by
  unfold group_blocks; infer_instance

/-- Some user-scoped block rule of the account matches the number. -/
def user_blocks (db : database_configuration) (accountCode formattedNumber : String) : Prop :=
  ∃ b ∈ db.blocked_prefix_user,
    b.UserID = accountCode ∧ like_prefix_pattern formattedNumber b.pfx = true

instance (db : database_configuration) (a n : String) : Decidable (user_blocks db a n) := by
  unfold user_blocks; infer_instance

/-- What applying a translation rule to a number writes: the replacement
followed by `buffer`, the copy of `destNumber + digit_delete`. -/
def apply_rule (destNumber : String) (r : PrefixInRow) : Option String :=
  ((str_offset destNumber r.digit_delete).bind
    (fun src => strncpy_buffer26 src (26 - r.digit_delete))).map (fun buffer => r.new_pfx ++ buffer)

/-- Some group the account belongs to has `monitored=1`. -/
def group_monitoring_enabled (db : database_configuration) (accountCode : String) : Prop :=
  ∃ m ∈ db.group_user, m.UserID = accountCode ∧
    ∃ a ∈ db.group_agent, a.GroupID = m.GroupID ∧ a.monitored = 1

instance (db : database_configuration) (a : String) :
    Decidable (group_monitoring_enabled db a) := by
  unfold group_monitoring_enabled; infer_instance

/-- The account's own monitoring flag: column `Monitored` of the first row of
`options` for the account, if there is one. -/
def own_monitoring_flag (db : database_configuration) (accountCode : String) : Option Int :=
  ((db.options.filter (fun o => o.UserID = accountCode)).head?).map (fun o => o.Monitored)

/-- The account's own flag exists and is set (`atoi(myrow[0]) > 0`). -/
def own_monitoring_set (db : database_configuration) (accountCode : String) : Prop :=
  ∃ v, own_monitoring_flag db accountCode = some v ∧ 0 < v

/-- The caller-id selector as `app_exec` runs it: `isRcliOnCountryEnabled`, then
`startRcliOnCountry` when it returned non-zero. -/
def caller_id_selector (host : Host) (w : World) (formattedNumber : String)
    (dbInfo : database_configuration) : Option World :=
  (isRcliOnCountryEnabled w dbInfo).bind (fun p =>
    if p.1 ≠ 0 then startRcliOnCountry host p.2 formattedNumber dbInfo else some p.2)

/-- One successful run of `app_exec` taken apart: the results of its five
steps, each starting in the world the previous one left. -/
def Run (host : Host) (cfg : option_global) (w : World) (data : String)
    (formattedNumber : String) (w2 w3 w8 : World) (blocked : Int) : Prop :=
  ∃ (w1 w5 w6 : World) (resolved monitored : Int),
    get_international_number data cfg.dbCredentials w = some (formattedNumber, w1)
    ∧ strlen formattedNumber < 26
    ∧ is_trunked_asp_account w1 cfg.dbCredentials = some (resolved, w2)
    ∧ is_prefix_bloqued w2 formattedNumber cfg.dbCredentials = some (blocked, w3)
    ∧ isCallMonitored (if blocked ≠ 0 then (forceHangup host w3.chan.name w3).2 else w3)
        cfg.dbCredentials = some (monitored, w5)
    ∧ (if monitored ≠ 0 then recordCall host w5 cfg.options else some w5) = some w6
    ∧ caller_id_selector host w6 formattedNumber cfg.dbCredentials = some w8


/-- The row the flag lookups read: the first row of `users INNER JOIN options`
for the account. -/
def flags_row (db : database_configuration) (accountCode : String) :
    Option (UsersRow × OptionsRow) :=
  (users_options_join db accountCode).head?

/-- The caller id number `is_trunked_asp_account` reads from the channel. -/
def CallerIdNum (chan : Channel) : String :=
  S_COR chan.cid_num_valid chan.cid_num "<Unknown>"

/-- Rows of `users` kept by `(UserID=%s) AND (TenantID=%s)`, the value printed
for `UserID` being a bare digit string: the rows whose id is that number. -/
def tenant_accounts (db : database_configuration) (cid : String) (tenant : Int) :
    List UsersRow :=
  db.users.filter (fun u =>
    decide (sql_number u.UserID = sql_number cid)
      && decide (Cell.int u.TenantID = Cell.int tenant))

/-- The numbers of the account's pool kept for a subscriber digit: rows of
`dids NATURAL JOIN didToUser` with `userid = %s AND did LIKE '0<digit>%'`. -/
def pool_bucket (db : database_configuration) (accountCode : String) (digit : Int) :
    List String :=
  (db.dids.filter (fun d =>
    decide (d.userid = accountCode)
      && likeMatch_ci ("0" ++ toString digit ++ "%") d.did)).map (fun d => d.did)

/-- The step of `app_exec` an event comes from, in the order of the code:
0 `get_international_number`, 1 `is_trunked_asp_account`, 2 `is_prefix_bloqued`
and `forceHangup`, 3 `isCallMonitored` and `recordCall`, 4
`isRcliOnCountryEnabled` and `startRcliOnCountry`. -/
def Event.step : Event → Nat
  | .query (.translation_rule _) => 0
  | .query (.trunk_asp_option _) => 1
  | .query (.tenant_account _ _) => 1
  | .query (.group_count _) => 2
  | .query (.blocking_group_count _ _) => 2
  | .query (.user_block_rules _ _) => 2
  | .softhangup _ _ => 2
  | .query (.group_monitored_count _) => 3
  | .query (.user_monitored _) => 3
  | .pbx_exec _ _ => 3
  | .query (.rcli_option _) => 4
  | .query (.pool_numbers _ _) => 4

/-- The account code a statement is about, if it has one. -/
def Query.accountCode : Query → Option String
  | .group_count a => some a
  | .blocking_group_count a _ => some a
  | .user_block_rules a _ => some a
  | .group_monitored_count a => some a
  | .user_monitored a => some a
  | .trunk_asp_option a => some a
  | .rcli_option a => some a
  | .pool_numbers a _ => some a
  | .translation_rule _ => none
  | .tenant_account _ _ => none

/-- The events of one run of a step: its opening statement, then events of the
same step among which the opening statement does not occur again. -/
def step_run (i : Nat) (opening : Event) (t : List Event) : Prop :=
  ∃ l, t = opening :: l ∧ ∀ e ∈ l, e.step = i ∧ e ≠ opening

/-- Row that lines 538–539 of `startRcliOnCountry` seek to, for a generator whose
first value after `srand(seed)` is `rand_after_srand seed`, at wall-clock time
`time` (seconds), among `numRows` rows: `srand((unsigned)time(&t))` followed by
`rand() % numRows`. -/
def index_at (rand_after_srand : Nat → Nat) (time : Nat) (numRows : Nat) : Nat :=
  ((rand_after_srand (time % 2 ^ 32) : Int) % (numRows : Int)).toNat

/-- Caller number on the channel after `startRcliOnCountry`. -/
def presented (host : Host) (w : World) (formattedNumber : String)
    (dbInfo : database_configuration) : Option String :=
  (startRcliOnCountry host w formattedNumber dbInfo).map (fun w' => w'.chan.cid_num)

/-! ## Scenarios -/

/-- A server with empty tables on which no statement fails. -/
def no_tables : database_configuration :=
  { users := [], options := [], group_user := [], group_agent := [],
    blocked_prefix_group := [], blocked_prefix_user := [], prefix_in := [], dids := [],
    failing := fun _ => false }

/-- A host on which every application and channel is found. -/
def scenario_host : Host :=
  { findapp := fun _ => true, channel_exists := fun _ => true, time := 1700000000,
    rand_after_srand := fun seed => seed, dateTime := "20231114-221320" }

/-- A channel of the given account, nothing traced yet. -/
def world_of (accountcode : String) : World :=
  { chan := { name := "SIP/" ++ accountcode ++ "-00000001", uniqueid := "1700000000.1",
              accountcode := accountcode, cid_num_valid := true, cid_num := "0612345678",
              cid_name := "caller" },
    trace := [] }

/-- Configuration over a given server. -/
def cfg_of (db : database_configuration) : option_global :=
  { dbCredentials := db,
    options := { dstPath := "/var/spool/asterisk/monitor", host := "LEA-DEFAULT",
                 extension := "WAV" } }

/-- Account "42" is in no group; account "7" is, and rules exist at both levels. -/
def db_zero_groups : database_configuration :=
  { no_tables with
    group_user := [⟨1, "7", "G1"⟩],
    blocked_prefix_group := [⟨"G1", "0033"⟩],
    blocked_prefix_user := [⟨"42", "+44"⟩, ⟨"7", "0033"⟩] }

/-- Account "10" is in groups G1 and G2; both block `+33`, only G2 blocks
`+44`; the account itself may not dial `+4420`. -/
def db_two_groups : database_configuration :=
  { no_tables with
    group_user := [⟨1, "10", "G1"⟩, ⟨2, "10", "G2"⟩, ⟨3, "11", "G2"⟩],
    blocked_prefix_group := [⟨"G1", "+336"⟩, ⟨"G2", "+33"⟩, ⟨"G2", "+44"⟩],
    blocked_prefix_user := [⟨"10", "+4420"⟩] }

/-- As `db_two_groups`, the statement on the user's rules failing. -/
def db_two_groups_failing : database_configuration :=
  { db_two_groups with
    failing := fun q => decide (q = Query.user_block_rules "10" "+4412345678") }

/-- The two translation rules of the specification's scenario, for tenant 1. -/
def db_spec_rules : database_configuration :=
  { no_tables with prefix_in := [⟨"00", 2, "", 1⟩, ⟨"0033", 4, "+33", 1⟩] }

/-- A rule of tenant 1 with a wildcard, and a longer literal rule of tenant 2. -/
def db_wildcard_tenant : database_configuration :=
  { no_tables with prefix_in := [⟨"0_3", 1, "", 1⟩, ⟨"0033", 4, "+33", 2⟩] }

/-- Account "7" is in group G1 only, G1 has `monitored=1`, the account's own
flag is 0. -/
def db_group_monitored : database_configuration :=
  { no_tables with
    users := [⟨"7", 1⟩],
    options := [⟨"7", 0, 0, 0⟩],
    group_user := [⟨1, "7", "G1"⟩],
    group_agent := [⟨"G1", 1⟩] }

/-- As `db_group_monitored`, the group-level statement failing. -/
def db_group_monitored_failing : database_configuration :=
  { db_group_monitored with
    failing := fun q => decide (q = Query.group_monitored_count "7") }

/-- Account "7" is in group G1 only, G1 has `monitored=0`, the account's own
flag is 1; account "8" has no row in `options`. -/
def db_user_monitored : database_configuration :=
  { no_tables with
    options := [⟨"7", 0, 1, 0⟩],
    group_user := [⟨1, "7", "G1"⟩, ⟨2, "8", "G1"⟩],
    group_agent := [⟨"G1", 0⟩] }

/-- As `db_user_monitored`, the user-level statement failing. -/
def db_user_monitored_failing : database_configuration :=
  { db_user_monitored with
    failing := fun q => decide (q = Query.user_monitored "7") }


/-- A channel of the given account presenting the given caller id number. -/
def world_calling (accountcode cid : String) : World :=
  { chan := { name := "SIP/" ++ accountcode ++ "-00000001", uniqueid := "1700000000.1",
              accountcode := accountcode, cid_num_valid := true, cid_num := cid,
              cid_name := "caller" },
    trace := [] }

/-- Account "100" has the option Trunk ASP on and is of tenant 1, as is account
"200"; account "300" is of tenant 2. -/
def db_trunk : database_configuration :=
  { no_tables with
    users := [⟨"100", 1⟩, ⟨"200", 1⟩, ⟨"300", 2⟩],
    options := [⟨"100", 1, 0, 0⟩, ⟨"200", 0, 0, 0⟩, ⟨"300", 0, 0, 0⟩],
    group_user := [⟨1, "100", "G1"⟩, ⟨2, "200", "G1"⟩] }

/-- As `db_trunk`, the lookup of the caller id in the tenant failing. -/
def db_trunk_failing : database_configuration :=
  { db_trunk with
    failing := fun q => decide (q = Query.tenant_account "200" (Cell.int 1)) }


/-- Account "10" is in group G1, which blocks nothing; the account itself may
not dial numbers starting with "ab". -/
def db_letters : database_configuration :=
  { no_tables with
    group_user := [⟨1, "10", "G1"⟩],
    blocked_prefix_user := [⟨"10", "ab"⟩] }

/-- Account "42" has the option RCLI on and numbers in its pool: two starting
with "06", one starting with "07", two in international form. -/
def db_pool : database_configuration :=
  { no_tables with
    users := [⟨"42", 1⟩],
    options := [⟨"42", 0, 0, 1⟩],
    dids := [⟨"0611110000", "42"⟩, ⟨"0611110001", "42"⟩, ⟨"0711110000", "42"⟩,
             ⟨"+33611110000", "42"⟩, ⟨"+33611110001", "42"⟩] }

/-- The world a run of `app_exec` ends in (the starting world if it has none). -/
def final_world (host : Host) (cfg : option_global) (w : World) (data : String) : World :=
  ((app_exec host cfg w data).map Prod.snd).getD w

/-- Account "42" is in no group, hence blocked; its own monitoring flag and its
option RCLI are on, and it has two numbers starting with "06" in its pool. -/
def db_blocked_recorded : database_configuration :=
  { no_tables with
    users := [⟨"42", 1⟩],
    options := [⟨"42", 0, 1, 1⟩],
    dids := [⟨"0611110000", "42"⟩, ⟨"0611110001", "42"⟩] }

/-- As `db_trunk`, with one more account of tenant 1 whose id is written "0200". -/
def db_trunk_two_writings : database_configuration :=
  { db_trunk with users := [⟨"100", 1⟩, ⟨"200", 1⟩, ⟨"0200", 1⟩, ⟨"300", 2⟩] }

/-- As `db_trunk`, with the option RCLI on for account "200", in group G1 that
blocks nothing, and two numbers starting with "06" in its pool. -/
def db_trunk_pool : database_configuration :=
  { db_trunk with
    options := [⟨"100", 1, 0, 0⟩, ⟨"200", 0, 0, 1⟩, ⟨"300", 0, 0, 0⟩],
    dids := [⟨"0611110000", "200"⟩, ⟨"0611110001", "200"⟩, ⟨"0611110002", "100"⟩] }

/-- Account "10" has two membership rows for the same group G1, which blocks
`+33`. -/
def db_duplicate_membership : database_configuration :=
  { no_tables with
    group_user := [⟨1, "10", "G1"⟩, ⟨2, "10", "G1"⟩],
    blocked_prefix_group := [⟨"G1", "+33"⟩] }

/-- The host of the scenarios at another second of the clock. -/
def scenario_host_at (time : Nat) : Host :=
  { scenario_host with time := time }

/-- A rule that turns the national `0` into `33`, and a rule that discards a
four-character carrier code starting with `16`. -/
def db_national_rule : database_configuration :=
  { no_tables with
    users := [⟨"42", 1⟩],
    options := [⟨"42", 0, 0, 0⟩],
    prefix_in := [⟨"0", 1, "33", 1⟩, ⟨"16", 4, "", 1⟩] }

/-! ## Block-list evaluation (`is_prefix_bloqued`) -/

theorem MYSQL_query_error_iff (q : Query) (db : database_configuration) (w : World) :
    (MYSQL_query q db w).numRows = -1 ↔ db.failing q = true := by
  unfold MYSQL_query
  by_cases hf : db.failing q = true
  · simp [hf]
  · simp only [hf, if_false, iff_false, Bool.false_eq_true]
    omega

theorem mem_blocking_join (db : database_configuration) (a n g : String) :
    g ∈ blocking_join db a n ↔ g ∈ groups_of db a ∧ group_blocks db g n := by
  unfold blocking_join groups_of memberships group_blocks
  simp only [List.mem_flatMap, List.mem_map, List.mem_filter, Bool.and_eq_true, decide_eq_true_eq]
  constructor
  · rintro ⟨b, hb, m, ⟨hm, ⟨hbm, hu⟩, hl⟩, rfl⟩
    exact ⟨⟨m, ⟨hm, hu⟩, hbm.symm⟩, b, hb, rfl, hl⟩
  · rintro ⟨⟨m, ⟨hm, hu⟩, rfl⟩, b, hb, hbg, hl⟩
    exact ⟨b, hb, m, ⟨hm, ⟨hbg, hu⟩, hl⟩, hbg⟩

theorem length_memberships (db : database_configuration) (a : String) :
    (memberships db a).length = (groups_of db a).length := by
  simp [groups_of]

theorem blocking_count_all (db : database_configuration) (a n : String)
    (hset : (groups_of db a).Nodup) (hall : ∀ g ∈ groups_of db a, group_blocks db g n) :
    (blocking_join db a n).dedup.length = (memberships db a).length := by
  rw [length_memberships]
  apply List.Perm.length_eq
  rw [List.perm_ext_iff_of_nodup (List.nodup_dedup _) hset]
  intro g
  rw [List.mem_dedup, mem_blocking_join]
  exact ⟨fun h => h.1, fun h => ⟨h, hall g h⟩⟩

theorem is_prefix_bloqued_user_value (w : World) (n : String) (db : database_configuration) :
    returned (is_prefix_bloqued_user w n db) =
      some (if db.failing (.user_block_rules w.chan.accountcode n) = true then 1
        else if user_block_matches db w.chan.accountcode n ≠ [] then 1 else 0) := by
  unfold returned is_prefix_bloqued_user MYSQL_query
  by_cases hf : db.failing (.user_block_rules w.chan.accountcode n) = true
  · simp [hf]
  · cases hm : user_block_matches db w.chan.accountcode n with
    | nil => simp [hf, select, hm]
    | cons b bs =>
      have hn : ¬ ((bs.length : Int) + 1 < 0) ∧ ¬ ((bs.length : Int) + 1 = 0) := by omega
      simp [hf, select, hm, mysql_fetch_row_at, hn]

/-- The value of `is_prefix_bloqued`, decision by decision. -/
theorem is_prefix_bloqued_value (w : World) (n : String) (db : database_configuration) :
    returned (is_prefix_bloqued w n db) =
      some (if db.failing (.group_count w.chan.accountcode) = true then 1
        else if (memberships db w.chan.accountcode).length = 0 then 1
        else if db.failing (.blocking_group_count w.chan.accountcode n) = true then 1
        else if (memberships db w.chan.accountcode).length
            = (blocking_join db w.chan.accountcode n).dedup.length then 1
        else if db.failing (.user_block_rules w.chan.accountcode n) = true then 1
        else if user_block_matches db w.chan.accountcode n ≠ [] then 1 else 0) := by
  unfold is_prefix_bloqued
  by_cases hf : db.failing (.group_count w.chan.accountcode) = true
  · simp [returned, MYSQL_query, hf]
  · by_cases h0 : (memberships db w.chan.accountcode).length = 0
    · simp [returned, MYSQL_query, hf, select, h0, mysql_fetch_row_at, Row.col, atoi]
    · by_cases hf2 : db.failing (.blocking_group_count w.chan.accountcode n) = true
      · simp [returned, MYSQL_query, hf, select, h0, mysql_fetch_row_at, Row.col, atoi, hf2,
          World.emit]
      · by_cases he : (memberships db w.chan.accountcode).length
            = (blocking_join db w.chan.accountcode n).dedup.length
        · simp [returned, MYSQL_query, hf, select, h0, mysql_fetch_row_at, Row.col, atoi, hf2,
            World.emit, he]
          split <;> exact ⟨_, rfl⟩
        · have := is_prefix_bloqued_user_value
            ((w.emit (.query (.group_count w.chan.accountcode))).emit
              (.query (.blocking_group_count w.chan.accountcode n))) n db
          simp [returned, MYSQL_query, hf, select, h0, mysql_fetch_row_at, Row.col, atoi, hf2,
            World.emit, he] at this ⊢
          exact this

/-- Claim C1: an account for which the store counts zero group memberships is
blocked (`is_prefix_bloqued` returns 1) for every destination number, whatever
block rules the tables hold and whether or not a statement fails. -/
theorem C1_zero_groups_blocked (w : World) (formattedNumber : String)
    (dbInfo : database_configuration)
    (h : (memberships dbInfo w.chan.accountcode).length = 0) :
    returned (is_prefix_bloqued w formattedNumber dbInfo) = some 1 := by
  rw [is_prefix_bloqued_value]
  simp [h]

/-- Scenario of C1: account "42", in no group, dials "0033612345678"; the
destination is blocked and `app_exec` hangs the channel up. -/
theorem C1_zero_groups_blocked_witness :
    (memberships db_zero_groups (world_of "42").chan.accountcode).length = 0
      ∧ returned (is_prefix_bloqued (world_of "42") "0033612345678" db_zero_groups) = some 1
      ∧ (app_exec scenario_host (cfg_of db_zero_groups) (world_of "42") "0033612345678").map
          (fun r => (r.1, decide (Event.softhangup "SIP/42-00000001" 11 ∈ r.2.trace)))
        = some (0, true) :=
  ⟨by decide, C1_zero_groups_blocked _ _ _ (by decide), by decide⟩

/-- Where the membership rows of an account name each of its groups once and
every group holds a block rule whose pattern matches the destination,
`is_prefix_bloqued` returns 1, whatever the user-scoped rules are. -/
theorem all_groups_block_listed_once (w : World) (formattedNumber : String)
    (dbInfo : database_configuration)
    (hset : (groups_of dbInfo w.chan.accountcode).Nodup)
    (hall : ∀ g ∈ groups_of dbInfo w.chan.accountcode, group_blocks dbInfo g formattedNumber) :
    returned (is_prefix_bloqued w formattedNumber dbInfo) = some 1 := by
  rw [is_prefix_bloqued_value, blocking_count_all dbInfo _ _ hset hall]
  simp

/-- Account "10" is in G1 and G2, which both block "+33612345678". -/
theorem all_groups_block_listed_once_scenario :
    groups_of db_two_groups (world_of "10").chan.accountcode = ["G1", "G2"]
      ∧ (groups_of db_two_groups (world_of "10").chan.accountcode).Nodup
      ∧ (∀ g ∈ groups_of db_two_groups (world_of "10").chan.accountcode,
          group_blocks db_two_groups g "+33612345678")
      ∧ returned (is_prefix_bloqued (world_of "10") "+33612345678" db_two_groups) = some 1 :=
  ⟨by decide, by decide, by decide,
    all_groups_block_listed_once (world_of "10") "+33612345678" db_two_groups (by decide)
      (by decide)⟩

/-- Claim C2 fails on the code: account "10" has two membership rows, both for
group G1, and G1 blocks `+33`.  Every group of the account blocks
"+33612345678", but `count(GUID)` gives 2 membership rows and
`COUNT(DISTINCT GroupID)` gives 1 blocking group, so `is_prefix_bloqued` goes on
to the user rules, finds none and returns 0; `app_exec` requests no hangup. -/
theorem C2_duplicate_membership_not_blocked :
    groups_of db_duplicate_membership "10" = ["G1", "G1"]
      ∧ (∀ g ∈ groups_of db_duplicate_membership "10",
          group_blocks db_duplicate_membership g "+33612345678")
      ∧ select db_duplicate_membership (.group_count "10") = [[Cell.int 2]]
      ∧ select db_duplicate_membership (.blocking_group_count "10" "+33612345678")
          = [[Cell.int 1]]
      ∧ returned (is_prefix_bloqued (world_of "10") "+33612345678" db_duplicate_membership)
          = some 0
      ∧ (app_exec scenario_host (cfg_of db_duplicate_membership) (world_of "10")
          "+33612345678").map (fun p => (p.1, p.2.trace))
        = some (0, [Event.query (.translation_rule "+33612345678"),
            Event.query (.trunk_asp_option "10"),
            Event.query (.group_count "10"),
            Event.query (.blocking_group_count "10" "+33612345678"),
            Event.query (.user_block_rules "10" "+33612345678"),
            Event.query (.group_monitored_count "10"),
            Event.query (.user_monitored "10"),
            Event.query (.rcli_option "10")]) := by
  decide

/-- Claim C4: block-list evaluation is fail-closed; if one of the three
statements of `is_prefix_bloqued` (group count, blocking-group count, user
block rules) gets row count `-1` from `MYSQL_query`, the result is 1. -/
theorem C4_fail_closed (w : World) (formattedNumber : String)
    (dbInfo : database_configuration)
    (herr : (MYSQL_query (.group_count w.chan.accountcode) dbInfo w).numRows = -1
      ∨ (MYSQL_query (.blocking_group_count w.chan.accountcode formattedNumber)
            dbInfo w).numRows = -1
      ∨ (MYSQL_query (.user_block_rules w.chan.accountcode formattedNumber)
            dbInfo w).numRows = -1) :
    returned (is_prefix_bloqued w formattedNumber dbInfo) = some 1 := by
  simp only [MYSQL_query_error_iff] at herr
  rw [is_prefix_bloqued_value]
  rcases herr with h | h | h <;> simp only [h, if_true] <;> (repeat' split) <;> rfl

/-- Scenario of C4: the number would be allowed for account "10", but the
statement on the user's rules fails. -/
theorem C4_fail_closed_witness :
    (MYSQL_query (.user_block_rules (world_of "10").chan.accountcode "+4412345678")
        db_two_groups_failing (world_of "10")).numRows = -1
      ∧ returned (is_prefix_bloqued (world_of "10") "+4412345678" db_two_groups) = some 0
      ∧ returned (is_prefix_bloqued (world_of "10") "+4412345678" db_two_groups_failing)
          = some 1 :=
  ⟨by decide, by decide,
    C4_fail_closed (world_of "10") "+4412345678" db_two_groups_failing
      (Or.inr (Or.inr (by decide)))⟩

/-! ## Number normalisation (`get_international_number`) -/

theorem anyTail_of_nil (f : List Char → Bool) (h : f [] = true) (t : List Char) :
    anyTail f t = true := by
  induction t with
  | nil => simpa [anyTail] using h
  | cons x t ih => simp [anyTail, ih]

theorem likeMatch_literal (p t : List Char)
    (hp : ∀ c ∈ p, c ≠ '%' ∧ c ≠ '_' ∧ c ≠ '\\') :
    likeMatch (p ++ ['%']) t = true ↔ p <+: t := by
  induction p generalizing t with
  | nil =>
    simp only [List.nil_append, List.nil_prefix, iff_true]
    unfold likeMatch
    simp only [if_true]
    exact anyTail_of_nil _ (by simp [likeMatch]) t
  | cons c p ih =>
    obtain ⟨h1, h2, h3⟩ := hp c (List.mem_cons_self _ _)
    have hp' : ∀ d ∈ p, d ≠ '%' ∧ d ≠ '_' ∧ d ≠ '\\' :=
      fun d hd => hp d (List.mem_cons_of_mem _ hd)
    rw [List.cons_append]
    unfold likeMatch
    simp only [h1, h2, h3, if_false]
    cases t with
    | nil => simp [headThen]
    | cons x t' =>
      simp only [headThen, Bool.and_eq_true, beq_iff_eq, ih t' hp', List.cons_prefix_cons]
      constructor
      · rintro ⟨rfl, h⟩; exact ⟨rfl, h⟩
      · rintro ⟨rfl, h⟩; exact ⟨rfl, h⟩

/-- For a prefix without wildcard characters the `LIKE` condition of the
statements is literal prefix matching. -/
theorem like_prefix_pattern_literal (number pfx : String) (hp : wildcard_free pfx) :
    like_prefix_pattern number pfx = true ↔ pfx.data <+: number.data :=
  likeMatch_literal _ _ hp

theorem mem_translation_matches (db : database_configuration) (n : String) (r : PrefixInRow) :
    r ∈ translation_matches db n ↔
      r ∈ db.prefix_in ∧ like_prefix_pattern n r.pfx = true ∧ r.TenantID = 1 := by
  simp [translation_matches, List.mem_filter]

theorem selected_rule_spec (db : database_configuration) (n : String) (r : PrefixInRow)
    (h : selected_rule db n = some r) :
    r ∈ translation_matches db n
      ∧ ∀ r' ∈ translation_matches db n, r'.pfx.length ≤ r.pfx.length := by
  unfold selected_rule at h
  have hperm := List.perm_insertionSort longer_first (translation_matches db n)
  have hsort := List.sorted_insertionSort longer_first (translation_matches db n)
  cases hl : (translation_matches db n).insertionSort longer_first with
  | nil => rw [hl] at h; simp at h
  | cons a tl =>
    rw [hl] at h hperm hsort
    simp only [List.head?_cons, Option.some.injEq] at h
    subst h
    refine ⟨hperm.subset (List.mem_cons_self _ _), fun r' hr' => ?_⟩
    have hr'' := hperm.symm.subset hr'
    rcases List.mem_cons.mp hr'' with rfl | hmem
    · exact le_refl _
    · exact List.rel_of_sorted_cons hsort r' hmem

theorem selected_rule_none (db : database_configuration) (n : String) :
    selected_rule db n = none ↔ translation_matches db n = [] := by
  unfold selected_rule
  rw [List.head?_eq_none_iff]
  constructor
  · intro h
    have := (List.perm_insertionSort longer_first (translation_matches db n)).length_eq
    rw [h] at this
    exact List.length_eq_zero.mp this.symm
  · intro h; rw [h]; rfl

/-- The text `get_international_number` writes, decision by decision. -/
theorem get_international_number_value (destNumber : String) (db : database_configuration)
    (w : World) :
    returned (get_international_number destNumber db w) =
      if db.failing (.translation_rule destNumber) = true then some destNumber
      else match selected_rule db destNumber with
        | none => some destNumber
        | some r => apply_rule destNumber r := by
  unfold returned get_international_number MYSQL_query
  by_cases hf : db.failing (.translation_rule destNumber) = true
  · simp [hf]
  · cases hs : selected_rule db destNumber with
    | none => simp [hf, select, hs]
    | some r =>
      simp only [hf, select, hs, apply_rule, Option.toList, List.map, mysql_fetch_row_at]
      simp only [Row.col, atoi, Cell.str, List.getD_cons_zero, List.getD_cons_succ,
        List.length_singleton, Nat.cast_one, List.get?_cons_zero]
      cases h1 : str_offset destNumber r.digit_delete with
      | none => simp [h1]
      | some src => cases h2 : strncpy_buffer26 src (26 - r.digit_delete) <;> simp [h1, h2]

theorem apply_rule_in_bounds (destNumber : String) (r : PrefixInRow) (k : Nat)
    (hk : r.digit_delete = (k : Int)) (hkl : k ≤ strlen destNumber)
    (hlen : strlen destNumber ≤ 25) :
    apply_rule destNumber r = some (r.new_pfx ++ String.mk (destNumber.data.drop k)) := by
  unfold apply_rule str_offset strncpy_buffer26
  have h1 : (0 : Int) ≤ r.digit_delete ∧ r.digit_delete ≤ (strlen destNumber : Int) := by
    omega
  have h3 : strlen (String.mk (destNumber.data.drop k)) = strlen destNumber - k := by
    simp [strlen]
  have h2 : (0 : Int) ≤ 26 - r.digit_delete ∧ 26 - r.digit_delete ≤ 26
      ∧ (strlen (String.mk (destNumber.data.drop k)) : Int) < 26 - r.digit_delete := by
    rw [h3]; omega
  have h4 : r.digit_delete.toNat = k := by omega
  rw [if_pos h1, Option.some_bind, h4, if_pos h2, Option.map_some']

/-- Claim C5, as amended: when the lookup succeeds and some rule of tenant 1
matches, the rule `get_international_number` applies is a rule of tenant 1
whose pattern (its prefix followed by `%`) matches the number under
`LIKE BINARY`, which for a prefix without `%`, `_` or backslash means that the
prefix is a literal prefix of the number; and no rule of tenant 1 that matches
(in particular none that is wildcard-free and a literal prefix) is longer. -/
theorem C5_longest_matching_rule (destNumber : String) (dbInfo : database_configuration)
    (w : World)
    (hok : dbInfo.failing (.translation_rule destNumber) = false)
    (hmatch : ∃ r0 ∈ dbInfo.prefix_in,
      r0.TenantID = 1 ∧ like_prefix_pattern destNumber r0.pfx = true) :
    ∃ r, selected_rule dbInfo destNumber = some r
      ∧ returned (get_international_number destNumber dbInfo w) = apply_rule destNumber r
      ∧ r ∈ dbInfo.prefix_in ∧ r.TenantID = 1 ∧ like_prefix_pattern destNumber r.pfx = true
      ∧ (wildcard_free r.pfx → r.pfx.data <+: destNumber.data)
      ∧ ∀ r' ∈ dbInfo.prefix_in, r'.TenantID = 1 →
          (like_prefix_pattern destNumber r'.pfx = true
            ∨ (wildcard_free r'.pfx ∧ r'.pfx.data <+: destNumber.data)) →
          r'.pfx.length ≤ r.pfx.length := by
  obtain ⟨r0, hr0, ht0, hl0⟩ := hmatch
  cases hs : selected_rule dbInfo destNumber with
  | none =>
    rw [selected_rule_none] at hs
    have : r0 ∈ translation_matches dbInfo destNumber :=
      (mem_translation_matches _ _ _).mpr ⟨hr0, hl0, ht0⟩
    rw [hs] at this
    exact absurd this (List.not_mem_nil _)
  | some r =>
    obtain ⟨hmem, hmax⟩ := selected_rule_spec dbInfo destNumber r hs
    obtain ⟨hin, hlike, hten⟩ := (mem_translation_matches _ _ _).mp hmem
    refine ⟨r, rfl, ?_, hin, hten, hlike, ?_, ?_⟩
    · rw [get_international_number_value, hok, hs]
      simp
    · intro hwf
      exact (like_prefix_pattern_literal _ _ hwf).mp hlike
    · intro r' hr' ht' hm'
      apply hmax r'
      rw [mem_translation_matches]
      refine ⟨hr', ?_, ht'⟩
      rcases hm' with h | ⟨hwf, hpre⟩
      · exact h
      · exact (like_prefix_pattern_literal _ _ hwf).mpr hpre

/-- Scenario of C5: with the rules "00" and "0033" of tenant 1, the rule
applied to "0033612345678" is the 4-character one. -/
theorem C5_longest_matching_rule_witness :
    db_spec_rules.failing (.translation_rule "0033612345678") = false
      ∧ selected_rule db_spec_rules "0033612345678" = some ⟨"0033", 4, "+33", 1⟩
      ∧ ∃ r, selected_rule db_spec_rules "0033612345678" = some r
          ∧ returned (get_international_number "0033612345678" db_spec_rules (world_of "42"))
              = apply_rule "0033612345678" r
          ∧ r ∈ db_spec_rules.prefix_in ∧ r.TenantID = 1
          ∧ like_prefix_pattern "0033612345678" r.pfx = true
          ∧ (wildcard_free r.pfx → r.pfx.data <+: "0033612345678".data)
          ∧ ∀ r' ∈ db_spec_rules.prefix_in, r'.TenantID = 1 →
              (like_prefix_pattern "0033612345678" r'.pfx = true
                ∨ (wildcard_free r'.pfx ∧ r'.pfx.data <+: "0033612345678".data)) →
              r'.pfx.length ≤ r.pfx.length :=
  ⟨rfl, by decide,
    C5_longest_matching_rule "0033612345678" db_spec_rules (world_of "42") rfl
      ⟨⟨"00", 2, "", 1⟩, by decide, by decide, by decide⟩⟩

/-- Claim C5 as stated fails: with a rule "0_3" of tenant 1 and a rule "0033"
of tenant 2, the rule applied to "0033612345678" is "0_3" (the result is
"033612345678"); its prefix is not a literal prefix of the number, and the
rule "0033", a literal prefix of the number, is longer. -/
theorem C5_counterexample :
    selected_rule db_wildcard_tenant "0033612345678" = some ⟨"0_3", 1, "", 1⟩
      ∧ returned (get_international_number "0033612345678" db_wildcard_tenant (world_of "42"))
          = some "033612345678"
      ∧ ¬ ("0_3".data <+: "0033612345678".data)
      ∧ (⟨"0033", 4, "+33", 2⟩ : PrefixInRow) ∈ db_wildcard_tenant.prefix_in
      ∧ "0033".data <+: "0033612345678".data
      ∧ "0_3".length < "0033".length := by
  decide

/-- On a successful lookup that selects a rule with discard count `k` and
replacement `p`, for a number of at most 25 characters that has `k` characters
to discard and a result of at most 25 characters, `get_international_number`
writes `p` followed by the number without its first `k` characters. -/
theorem get_international_number_in_bounds (destNumber : String)
    (dbInfo : database_configuration) (w : World) (r : PrefixInRow) (k : Nat) (p : String)
    (hok : dbInfo.failing (.translation_rule destNumber) = false)
    (hsel : selected_rule dbInfo destNumber = some r)
    (hk : r.digit_delete = (k : Int)) (hp : r.new_pfx = p)
    (hkl : k ≤ strlen destNumber) (hlen : strlen destNumber ≤ 25)
    (hfit : strlen p + (strlen destNumber - k) ≤ 25) :
    returned (get_international_number destNumber dbInfo w)
        = some (p ++ String.mk (destNumber.data.drop k))
      ∧ strlen (p ++ String.mk (destNumber.data.drop k)) ≤ 25 := by
  constructor
  · rw [get_international_number_value, hok, hsel, ← hp]
    simpa using apply_rule_in_bounds destNumber r k hk hkl hlen
  · unfold strlen at hfit ⊢
    simpa using hfit

/-- The scenario of the specification: rules ("00", 2, "") and ("0033", 4, "+33")
turn "0033612345678" into "+33612345678". -/
theorem get_international_number_in_bounds_scenario :
    db_spec_rules.failing (.translation_rule "0033612345678") = false
      ∧ selected_rule db_spec_rules "0033612345678" = some ⟨"0033", 4, "+33", 1⟩
      ∧ 4 ≤ strlen "0033612345678" ∧ strlen "0033612345678" ≤ 25
      ∧ returned (get_international_number "0033612345678" db_spec_rules (world_of "42"))
          = some "+33612345678" :=
  ⟨rfl, by decide, by decide, by decide,
    (get_international_number_in_bounds "0033612345678" db_spec_rules (world_of "42")
      ⟨"0033", 4, "+33", 1⟩ 4 "+33" rfl (by decide) rfl rfl (by decide) (by decide)
      (by decide)).1.trans (by decide)⟩

/-- Claim C6 fails on the code, which bounds neither the discard count nor the
length of the result.  The rule ("16", discard 4, "") is selected for the dialed
number "160", which has 3 characters: the copy starts outside the number and
`get_international_number` has no defined result.  The rule ("0", discard 1,
"33") is selected for the 25 characters of "0123456789012345678901234": `p`
followed by the rest of the number has 26 characters, which `formattedNumber[26]`
cannot hold with the terminator, and `app_exec` has no defined result. -/
theorem C6_rule_outside_bounds :
    selected_rule db_national_rule "160" = some ⟨"16", 4, "", 1⟩
      ∧ strlen "160" = 3
      ∧ str_offset "160" 4 = none
      ∧ (get_international_number "160" db_national_rule (world_of "42")).isNone = true
      ∧ selected_rule db_national_rule "0123456789012345678901234" = some ⟨"0", 1, "33", 1⟩
      ∧ strlen "0123456789012345678901234" = 25
      ∧ strlen ("33" ++ String.mk ("0123456789012345678901234".data.drop 1)) = 26
      ∧ (app_exec scenario_host (cfg_of db_national_rule) (world_of "42")
          "0123456789012345678901234").isNone = true := by
  decide

theorem monitored_join_ne_nil (db : database_configuration) (a : String) :
    monitored_join db a ≠ [] ↔ group_monitoring_enabled db a := by
  unfold monitored_join group_monitoring_enabled
  rw [Ne, List.flatMap_eq_nil_iff]
  simp only [List.map_eq_nil_iff, List.filter_eq_nil_iff, Bool.and_eq_true, decide_eq_true_eq,
    not_forall, not_not]
  constructor
  · rintro ⟨m, hm, a', ha', ⟨h1, h2⟩, h3⟩
    exact ⟨m, hm, h2, a', ha', h1.symm, h3⟩
  · rintro ⟨m, hm, h2, a', ha', h1, h3⟩
    exact ⟨m, hm, a', ha', ⟨h1.symm, h2⟩, h3⟩

/-- The value of `isCallMonitored`, decision by decision. -/
theorem isCallMonitored_value (w : World) (db : database_configuration) :
    returned (isCallMonitored w db) =
      some (if db.failing (.group_monitored_count w.chan.accountcode) = true then 0
        else if monitored_join db w.chan.accountcode ≠ [] then 1
        else if db.failing (.user_monitored w.chan.accountcode) = true then 0
        else match own_monitoring_flag db w.chan.accountcode with
          | some v => if 0 < v then 1 else 0
          | none => 0) := by
  unfold returned isCallMonitored
  by_cases hf : db.failing (.group_monitored_count w.chan.accountcode) = true
  · simp [MYSQL_query, hf]
  · by_cases hj : monitored_join db w.chan.accountcode = []
    · by_cases hf2 : db.failing (.user_monitored w.chan.accountcode) = true
      · simp [MYSQL_query, hf, select, hj, mysql_fetch_row_at, Row.col, atoi, hf2, World.emit]
      · unfold own_monitoring_flag
        cases ho : db.options.filter (fun o => o.UserID = w.chan.accountcode) with
        | nil =>
          simp [MYSQL_query, hf, select, hj, mysql_fetch_row_at, Row.col, atoi, hf2, World.emit, ho]
        | cons o os =>
          have hn : (-1 : Int) < (os.length : Int) + 1 ∧ ¬ ((os.length : Int) + 1 = 0) := by
            omega
          by_cases hv : 0 < o.Monitored <;>
            simp [MYSQL_query, hf, select, hj, mysql_fetch_row_at, Row.col, atoi, hf2,
              World.emit, ho, hv, hn]
    · have hpos : 0 < (monitored_join db w.chan.accountcode).length :=
        List.length_pos.mpr hj
      simp [MYSQL_query, hf, select, hj, mysql_fetch_row_at, Row.col, atoi, hpos]

/-- Claim C8, as amended: when the group-level statement does not fail and some
group of the account has monitoring enabled, `isCallMonitored` returns 1,
whatever the account's own flag is (set, unset or absent) and whether or not
the user-level statement would fail. -/
theorem C8_group_flag_wins (w : World) (dbInfo : database_configuration)
    (hok : dbInfo.failing (.group_monitored_count w.chan.accountcode) = false)
    (hgroup : group_monitoring_enabled dbInfo w.chan.accountcode) :
    returned (isCallMonitored w dbInfo) = some 1 := by
  rw [isCallMonitored_value, hok]
  simp [(monitored_join_ne_nil _ _).mpr hgroup]

/-- Scenario of C8: account "7" is in G1 only, G1 has monitoring 1, the
account's own flag is 0; the call is recorded. -/
theorem C8_group_flag_wins_witness :
    db_group_monitored.failing (.group_monitored_count (world_of "7").chan.accountcode) = false
      ∧ group_monitoring_enabled db_group_monitored (world_of "7").chan.accountcode
      ∧ own_monitoring_flag db_group_monitored "7" = some 0
      ∧ returned (isCallMonitored (world_of "7") db_group_monitored) = some 1 :=
  ⟨rfl, by decide, by decide,
    C8_group_flag_wins (world_of "7") db_group_monitored rfl (by decide)⟩

/-- Claim C8 as stated fails: account "7" is in G1, G1 has monitoring 1, but the
group-level statement fails and `isCallMonitored` returns 0. -/
theorem C8_counterexample :
    group_monitoring_enabled db_group_monitored_failing (world_of "7").chan.accountcode
      ∧ returned (isCallMonitored (world_of "7") db_group_monitored_failing) = some 0 := by
  decide

/-- Claim C9: when no group of the account has monitoring enabled (the account
may be in no group) and no statement fails, `isCallMonitored` returns 1 exactly
when the account's own flag exists and is set, 0 otherwise, and in particular 0
when the account has no row in `options`. -/
theorem C9_own_flag_decides (w : World) (dbInfo : database_configuration)
    (hnone : ¬ group_monitoring_enabled dbInfo w.chan.accountcode)
    (hok : ∀ q, dbInfo.failing q = false) :
    (returned (isCallMonitored w dbInfo) = some 1
        ↔ own_monitoring_set dbInfo w.chan.accountcode)
      ∧ (returned (isCallMonitored w dbInfo) = some 0
        ↔ ¬ own_monitoring_set dbInfo w.chan.accountcode)
      ∧ (own_monitoring_flag dbInfo w.chan.accountcode = none →
          returned (isCallMonitored w dbInfo) = some 0) := by
  have hj : monitored_join dbInfo w.chan.accountcode = [] := by
    by_contra hne
    exact hnone ((monitored_join_ne_nil _ _).mp hne)
  rw [isCallMonitored_value]
  unfold own_monitoring_set
  simp only [hok, hj, ne_eq, not_true_eq_false, if_false, Bool.false_eq_true]
  cases hflag : own_monitoring_flag dbInfo w.chan.accountcode with
  | none => simp
  | some v =>
    by_cases hv : 0 < v
    · simp [hv]
    · simp [hv]

/-- Scenario of C9: G1 is not monitored; account "7" has its own flag set and
is recorded, account "8" has no row in `options` and is not. -/
theorem C9_own_flag_decides_witness :
    ¬ group_monitoring_enabled db_user_monitored (world_of "7").chan.accountcode
      ∧ (∀ q, db_user_monitored.failing q = false)
      ∧ returned (isCallMonitored (world_of "7") db_user_monitored) = some 1
      ∧ own_monitoring_flag db_user_monitored "8" = none
      ∧ returned (isCallMonitored (world_of "8") db_user_monitored) = some 0 :=
  ⟨by decide, fun _ => rfl,
    (C9_own_flag_decides (world_of "7") db_user_monitored (by decide) (fun _ => rfl)).1.mpr
      ⟨1, by decide, by decide⟩,
    by decide, by decide⟩

/-- Claim C10: monitoring is fail-open; if the group-level or the user-level
statement gets row count `-1` from `MYSQL_query`, `isCallMonitored` returns 0,
unless the group-level statement succeeded and found a group flag set, in which
case it returns 1. -/
theorem C10_fail_open (w : World) (dbInfo : database_configuration)
    (herr : (MYSQL_query (.group_monitored_count w.chan.accountcode) dbInfo w).numRows = -1
      ∨ (MYSQL_query (.user_monitored w.chan.accountcode) dbInfo w).numRows = -1) :
    (dbInfo.failing (.group_monitored_count w.chan.accountcode) = false
        ∧ group_monitoring_enabled dbInfo w.chan.accountcode →
          returned (isCallMonitored w dbInfo) = some 1)
      ∧ (¬ (dbInfo.failing (.group_monitored_count w.chan.accountcode) = false
        ∧ group_monitoring_enabled dbInfo w.chan.accountcode) →
          returned (isCallMonitored w dbInfo) = some 0) := by
  simp only [MYSQL_query_error_iff] at herr
  rw [isCallMonitored_value, ← monitored_join_ne_nil]
  constructor
  · rintro ⟨h1, h2⟩
    simp [h1, h2]
  · intro hn
    by_cases h1 : dbInfo.failing (.group_monitored_count w.chan.accountcode) = true
    · simp [h1]
    · have h2 : dbInfo.failing (.user_monitored w.chan.accountcode) = true := by
        rcases herr with h | h
        · exact absurd h h1
        · exact h
      have h3 : monitored_join dbInfo w.chan.accountcode = [] := by
        by_contra hne
        exact hn ⟨by simpa using h1, hne⟩
      simp [h1, h2, h3]

/-- Scenario of C10: account "7" has its own flag set and no monitored group;
when the user-level statement fails the call is not recorded. -/
theorem C10_fail_open_witness :
    (MYSQL_query (.user_monitored (world_of "7").chan.accountcode) db_user_monitored_failing
        (world_of "7")).numRows = -1
      ∧ returned (isCallMonitored (world_of "7") db_user_monitored) = some 1
      ∧ returned (isCallMonitored (world_of "7") db_user_monitored_failing) = some 0 :=
  ⟨by decide, by decide,
    (C10_fail_open (world_of "7") db_user_monitored_failing (Or.inr (by decide))).2
      (by decide)⟩

/-! ## The pipeline (`app_exec`) and its other steps -/

theorem MYSQL_query_world (q : Query) (db : database_configuration) (w : World) :
    (MYSQL_query q db w).world = w.emit (.query q) := by
  unfold MYSQL_query; split <;> rfl

theorem get_international_number_trace (d : String) (db : database_configuration) (w : World)
    (n : String) (w' : World) (h : get_international_number d db w = some (n, w')) :
    w' = w.emit (.query (.translation_rule d)) := by
  unfold get_international_number at h
  simp only [MYSQL_query_world] at h
  split at h
  · simp at h; exact h.2.symm
  · split at h
    · split at h
      · simp at h
      · split at h
        · simp at h
        · simp at h; exact h.2.symm
    · simp at h; exact h.2.symm

theorem is_prefix_bloqued_user_trace (w : World) (n : String) (db : database_configuration)
    (r : Int) (w' : World) (h : is_prefix_bloqued_user w n db = some (r, w')) :
    w' = w.emit (.query (.user_block_rules w.chan.accountcode n)) := by
  unfold is_prefix_bloqued_user at h
  simp only [MYSQL_query_world] at h
  split at h
  · simp at h; exact h.2.symm
  · split at h
    · split at h
      · simp at h
      · simp at h; exact h.2.symm
    · simp at h; exact h.2.symm


theorem is_prefix_bloqued_trace (w : World) (n : String) (db : database_configuration)
    (r : Int) (w' : World) (h : is_prefix_bloqued w n db = some (r, w')) :
    w'.chan = w.chan ∧ ∃ l, w'.trace = w.trace ++ Event.query (.group_count w.chan.accountcode) :: l
      ∧ ∀ e ∈ l, e = Event.query (.blocking_group_count w.chan.accountcode n)
          ∨ e = Event.query (.user_block_rules w.chan.accountcode n) := by
  unfold is_prefix_bloqued at h
  simp only [MYSQL_query_world] at h
  repeat' split at h
  all_goals first
    | (have hu := is_prefix_bloqued_user_trace _ _ _ _ _ h
       subst hu
       simp [World.emit])
    | (simp at h; done)
    | (simp at h
       obtain ⟨-, rfl⟩ := h
       simp [World.emit])

theorem isCallMonitored_trace (w : World) (db : database_configuration)
    (r : Int) (w' : World) (h : isCallMonitored w db = some (r, w')) :
    w'.chan = w.chan
      ∧ ∃ l, w'.trace = w.trace ++ Event.query (.group_monitored_count w.chan.accountcode) :: l
      ∧ ∀ e ∈ l, e = Event.query (.user_monitored w.chan.accountcode) := by
  unfold isCallMonitored at h
  simp only [MYSQL_query_world] at h
  repeat' split at h
  all_goals first
    | (simp at h; done)
    | (simp at h
       obtain ⟨-, rfl⟩ := h
       simp [World.emit])

theorem isRcliOnCountryEnabled_trace (w : World) (db : database_configuration)
    (r : Int) (w' : World) (h : isRcliOnCountryEnabled w db = some (r, w')) :
    w' = w.emit (.query (.rcli_option w.chan.accountcode)) := by
  unfold isRcliOnCountryEnabled at h
  simp only [MYSQL_query_world] at h
  repeat' split at h
  all_goals first
    | (simp at h; done)
    | (simp at h; exact h.2.symm)

theorem startRcliOnCountry_trace (host : Host) (w : World) (n : String)
    (db : database_configuration) (w' : World)
    (h : startRcliOnCountry host w n db = some w') :
    w'.chan.accountcode = w.chan.accountcode ∧ w'.chan.name = w.chan.name
      ∧ ∃ l, w'.trace = w.trace ++ l
      ∧ ∀ e ∈ l, ∃ d, e = Event.query (.pool_numbers w.chan.accountcode d) := by
  unfold startRcliOnCountry at h
  simp only [MYSQL_query_world] at h
  repeat' split at h
  all_goals first
    | (simp at h; done)
    | (simp at h
       subst h
       simp [World.emit])

theorem recordCall_trace (host : Host) (w : World) (conf : option_configuration) (w' : World)
    (h : recordCall host w conf = some w') :
    w'.chan = w.chan ∧ ∃ l, w'.trace = w.trace ++ l
      ∧ ∀ e ∈ l, ∃ app d, e = Event.pbx_exec app d := by
  unfold recordCall at h
  repeat' split at h
  all_goals first
    | (simp at h; done)
    | (simp at h
       subst h
       simp [World.emit])
    | (simp at h
       obtain ⟨-, rfl⟩ := h
       simp [World.emit])

theorem forceHangup_trace (host : Host) (name : String) (w : World) :
    (forceHangup host name w).2.chan = w.chan
      ∧ ∃ l, (forceHangup host name w).2.trace = w.trace ++ l
      ∧ ∀ e ∈ l, e = Event.softhangup name 11 := by
  unfold forceHangup
  repeat' split
  all_goals simp [World.emit]

theorem is_trunked_asp_account_trace (w : World) (db : database_configuration)
    (r : Int) (w' : World) (h : is_trunked_asp_account w db = some (r, w')) :
    w'.chan.name = w.chan.name ∧ w'.chan.cid_num = w.chan.cid_num
      ∧ w'.chan.cid_name = w.chan.cid_name
      ∧ ∃ l, w'.trace = w.trace ++ Event.query (.trunk_asp_option w.chan.accountcode) :: l
      ∧ ∀ e ∈ l, ∃ c t, e = Event.query (.tenant_account c t) := by
  unfold is_trunked_asp_account at h
  simp only [MYSQL_query_world] at h
  repeat' split at h
  all_goals first
    | (simp at h; done)
    | (simp at h
       obtain ⟨-, rfl⟩ := h
       simp [World.emit])

theorem app_exec_some (host : Host) (cfg : option_global) (w : World) (data : String)
    (r : Int) (w8 : World) (h0 : dataSanityCheck w.chan data = 0)
    (h : app_exec host cfg w data = some (r, w8)) :
    r = 0 ∧ ∃ n w2 w3 blocked, Run host cfg w data n w2 w3 w8 blocked := by
  unfold app_exec at h
  rw [if_neg (by simp [h0])] at h
  cases h1 : get_international_number data cfg.dbCredentials w with
  | none => rw [h1] at h; simp at h
  | some p1 =>
    obtain ⟨n, w1⟩ := p1
    simp only [h1, Option.bind_eq_bind, Option.some_bind] at h
    by_cases hfit : strlen n < 26
    · simp only [hfit, not_true_eq_false, if_false, Option.pure_def, Option.some_bind] at h
      cases h2 : is_trunked_asp_account w1 cfg.dbCredentials with
      | none => rw [h2] at h; simp at h
      | some p2 =>
        obtain ⟨r2, w2⟩ := p2
        simp only [h2, Option.some_bind] at h
        cases h3 : is_prefix_bloqued w2 n cfg.dbCredentials with
        | none => rw [h3] at h; simp at h
        | some p3 =>
          obtain ⟨b, w3⟩ := p3
          simp only [h3, Option.some_bind] at h
          cases h5 : isCallMonitored
              (if b ≠ 0 then (forceHangup host w3.chan.name w3).2 else w3) cfg.dbCredentials with
          | none => rw [h5] at h; simp at h
          | some p5 =>
            obtain ⟨m, w5⟩ := p5
            simp only [h5, Option.some_bind] at h
            have key : ∀ w6, (if m ≠ 0 then recordCall host w5 cfg.options else some w5) = some w6 →
                ((isRcliOnCountryEnabled w6 cfg.dbCredentials).bind fun a =>
                  if a.1 ≠ 0 then
                    (startRcliOnCountry host a.2 n cfg.dbCredentials).bind fun y => some (0, y)
                  else some (0, a.2)) = some (r, w8) →
                r = 0 ∧ ∃ n w2 w3 blocked, Run host cfg w data n w2 w3 w8 blocked := by
              intro w6 h6 h
              cases h7 : isRcliOnCountryEnabled w6 cfg.dbCredentials with
              | none => rw [h7] at h; simp at h
              | some p7 =>
                obtain ⟨c, w7⟩ := p7
                rw [h7, Option.some_bind] at h
                have hsel : caller_id_selector host w6 n cfg.dbCredentials
                    = if c ≠ 0 then startRcliOnCountry host w7 n cfg.dbCredentials
                      else some w7 := by
                  simp only [caller_id_selector, h7, Option.some_bind]
                by_cases hc : c = 0
                · simp only [hc, ne_eq, not_true_eq_false, if_false, Option.some.injEq,
                    Prod.mk.injEq] at h hsel
                  obtain ⟨rfl, rfl⟩ := h
                  exact ⟨rfl, n, w2, w3, b, w1, w5, w6, r2, m, h1, hfit, h2, h3, h5, h6, hsel⟩
                · simp only [hc, ne_eq, not_false_eq_true, if_true] at h hsel
                  cases h8 : startRcliOnCountry host w7 n cfg.dbCredentials with
                  | none => rw [h8] at h; simp at h
                  | some w8' =>
                    rw [h8] at h hsel
                    simp only [Option.some_bind, Option.some.injEq, Prod.mk.injEq] at h
                    obtain ⟨rfl, rfl⟩ := h
                    exact ⟨rfl, n, w2, w3, b, w1, w5, w6, r2, m, h1, hfit, h2, h3, h5, h6,
                      hsel⟩
            by_cases hm : m = 0
            · simp only [hm, ne_eq, not_true_eq_false, if_false] at h
              exact key w5 (by simp [hm]) h
            · simp only [hm, ne_eq, not_false_eq_true, if_true] at h
              cases h6 : recordCall host w5 cfg.options with
              | none => rw [h6] at h; simp at h
              | some w6 =>
                rw [h6, Option.some_bind] at h
                exact key w6 (by simp [hm, h6]) h
    · simp [hfit] at h

theorem isRcliOnCountryEnabled_eq (w : World) (db : database_configuration) :
    isRcliOnCountryEnabled w db =
      some (if db.failing (.rcli_option w.chan.accountcode) = true then 0
            else match flags_row db w.chan.accountcode with
              | none => 0
              | some uo => if uo.2.RCLI ≠ 0 then 1 else 0,
            w.emit (.query (.rcli_option w.chan.accountcode))) := by
  unfold isRcliOnCountryEnabled flags_row MYSQL_query
  by_cases hf : db.failing (.rcli_option w.chan.accountcode) = true
  · simp [hf]
  · cases hj : users_options_join db w.chan.accountcode with
    | nil => simp [hf, select, hj]
    | cons uo rest =>
      have hn : ¬ ((rest.length : Int) + 1 < 1) := by omega
      by_cases hv : uo.2.RCLI = 0 <;>
        simp [hf, select, hj, mysql_fetch_row_at, Row.col, atoi, hn, hv]

theorem World.emit_chan (w : World) (e : Event) : (w.emit e).chan = w.chan := rfl

theorem select_trunk_asp_option (db : database_configuration) (a : String) :
    select db (.trunk_asp_option a) = (users_options_join db a).map
      (fun uo => [Cell.int uo.2.cidIsAcode, Cell.int uo.1.TenantID]) := rfl

theorem select_tenant_account (db : database_configuration) (c : String) (t : Int) :
    select db (.tenant_account c (Cell.int t)) = (tenant_accounts db c t).map
      (fun u => [Cell.text u.UserID]) := rfl

theorem is_trunked_asp_account_eq (w : World) (db : database_configuration) :
    is_trunked_asp_account w db =
      some (
        let w1 := w.emit (.query (.trunk_asp_option w.chan.accountcode))
        if db.failing (.trunk_asp_option w.chan.accountcode) = true then ((1 : Int), w1)
        else match flags_row db w.chan.accountcode with
          | none => (1, w1)
          | some uo =>
            if uo.2.cidIsAcode = 1 then
              if is_string_digits (CallerIdNum w.chan) ≠ 0 then (1, w1)
              else
                let q2 := Query.tenant_account (CallerIdNum w.chan) (Cell.int uo.1.TenantID)
                let w2 := w1.emit (.query q2)
                if db.failing q2 = true then (1, w2)
                else match (tenant_accounts db (CallerIdNum w.chan) uo.1.TenantID).head? with
                  | none => (1, w2)
                  | some u => (0, { w2 with chan := { w2.chan with accountcode := u.UserID } })
            else (0, w1)) := by
  unfold is_trunked_asp_account flags_row CallerIdNum
  simp only [MYSQL_query_world, World.emit_chan]
  generalize S_COR w.chan.cid_num_valid w.chan.cid_num "<Unknown>" = cid
  by_cases hf : db.failing (.trunk_asp_option w.chan.accountcode) = true
  · simp [MYSQL_query, hf]
  · cases hj : users_options_join db w.chan.accountcode with
    | nil => simp [MYSQL_query, hf, select_trunk_asp_option, hj]
    | cons uo rest =>
      have hn : ¬ ((rest.length : Int) + 1 < 1) := by omega
      by_cases hv : uo.2.cidIsAcode = 1
      · by_cases hd : is_string_digits cid = 0
        · by_cases hf2 : db.failing (.tenant_account cid (Cell.int uo.1.TenantID)) = true
          · simp [MYSQL_query, hf, select_trunk_asp_option, hj, mysql_fetch_row_at, Row.col,
              atoi, hn, hv, World.emit, hd, hf2]
          · cases ht : tenant_accounts db cid uo.1.TenantID with
            | nil =>
              simp [MYSQL_query, hf, select_trunk_asp_option, select_tenant_account, hj,
                mysql_fetch_row_at, Row.col, atoi, hn, hv, World.emit, hd, hf2, ht]
            | cons u us =>
              have hn2 : ¬ ((us.length : Int) + 1 < 1) := by omega
              simp [MYSQL_query, hf, select_trunk_asp_option, select_tenant_account, hj,
                mysql_fetch_row_at, Row.col, atoi, hn, hv, World.emit, hd, hf2, ht, hn2,
                Cell.str]
        · simp [MYSQL_query, hf, select_trunk_asp_option, hj, mysql_fetch_row_at, Row.col,
            atoi, hn, hv, World.emit, hd]
      · simp [MYSQL_query, hf, select_trunk_asp_option, hj, mysql_fetch_row_at, Row.col, atoi,
          hn, hv]

theorem is_string_digits_loop_eq_zero (l : List Char) :
    is_string_digits_loop l = 0 ↔ ∀ c ∈ l, isdigit c = true := by
  induction l with
  | nil => simp [is_string_digits_loop]
  | cons c cs ih =>
    unfold is_string_digits_loop
    by_cases hc : isdigit c = true
    · simp [hc, ih]
    · simp [hc]

theorem is_string_digits_eq_zero (s : String) :
    is_string_digits s = 0 ↔ s.data ≠ [] ∧ ∀ c ∈ s.data, isdigit c = true := by
  unfold is_string_digits ast_strlen_zero
  cases hs : s.data with
  | nil => simp
  | cons c cs =>
    simp only [List.isEmpty_cons, Bool.false_eq_true, if_false, ne_eq, reduceCtorEq,
      not_false_eq_true, true_and]
    exact is_string_digits_loop_eq_zero _

theorem CallerIdNum_not_digits (chan : Channel)
    (h : chan.cid_num_valid = false ∨ chan.cid_num = ""
      ∨ ∃ c ∈ chan.cid_num.data, isdigit c = false) :
    is_string_digits (CallerIdNum chan) ≠ 0 := by
  have hunknown : is_string_digits "<Unknown>" ≠ 0 := by decide
  by_cases hv : (chan.cid_num_valid && !ast_strlen_zero chan.cid_num) = true
  · have hc : CallerIdNum chan = chan.cid_num := by
      unfold CallerIdNum S_COR
      rw [if_pos hv]
    rw [hc, Ne, is_string_digits_eq_zero]
    rintro ⟨hne, hall⟩
    rcases h with h | h | ⟨c, hc', hd⟩
    · rw [h] at hv; simp at hv
    · rw [h] at hne; exact hne rfl
    · rw [hall c hc'] at hd
      exact absurd hd (by decide)
  · have hc : CallerIdNum chan = "<Unknown>" := by
      unfold CallerIdNum S_COR
      rw [if_neg hv]
    rw [hc]
    exact hunknown

theorem CallerIdNum_valid (chan : Channel) (hv : chan.cid_num_valid = true)
    (hne : chan.cid_num ≠ "") : CallerIdNum chan = chan.cid_num := by
  have hd : chan.cid_num.data ≠ [] := fun h => hne (String.ext h)
  unfold CallerIdNum S_COR ast_strlen_zero
  cases hc : chan.cid_num.data with
  | nil => exact absurd hc hd
  | cons c cs => simp [hv, hc]

/-- Claim C13: `is_trunked_asp_account` leaves the channel, hence its account
id, unchanged when the flag lookup fails or returns no row, when the flag is not
enabled, when the caller id number is absent, empty or has a non-digit
character, and when no account of the original account's tenant has the caller
id number as its id (the server compares the two as numbers, so "0200" is the
id of account 200). -/
theorem C13_account_unchanged (w : World) (dbInfo : database_configuration)
    (h : dbInfo.failing (.trunk_asp_option w.chan.accountcode) = true
      ∨ flags_row dbInfo w.chan.accountcode = none
      ∨ (∃ uo, flags_row dbInfo w.chan.accountcode = some uo ∧ uo.2.cidIsAcode ≠ 1)
      ∨ (w.chan.cid_num_valid = false ∨ w.chan.cid_num = ""
          ∨ ∃ c ∈ w.chan.cid_num.data, isdigit c = false)
      ∨ (∀ uo, flags_row dbInfo w.chan.accountcode = some uo →
          ∀ u ∈ dbInfo.users, sql_number u.UserID = sql_number (CallerIdNum w.chan) →
            u.TenantID ≠ uo.1.TenantID)) :
    ∃ r w', is_trunked_asp_account w dbInfo = some (r, w')
      ∧ w'.chan = w.chan ∧ w'.chan.accountcode = w.chan.accountcode := by
  have hchan : ∀ p : Int × World, is_trunked_asp_account w dbInfo = some p →
      p.2.chan = w.chan := by
    intro p hp
    rw [is_trunked_asp_account_eq] at hp
    by_cases hf : dbInfo.failing (.trunk_asp_option w.chan.accountcode) = true
    · simp only [hf, if_true, Option.some.injEq] at hp
      rw [← hp]; rfl
    · cases hrow : flags_row dbInfo w.chan.accountcode with
      | none =>
        simp only [hf, if_false, hrow, Option.some.injEq] at hp
        rw [← hp]; rfl
      | some uo =>
        by_cases hv : uo.2.cidIsAcode = 1
        · by_cases hd : is_string_digits (CallerIdNum w.chan) = 0
          · by_cases hf2 : dbInfo.failing
                (.tenant_account (CallerIdNum w.chan) (Cell.int uo.1.TenantID)) = true
            · simp only [hf, if_false, hrow, hv, if_true, hd, ne_eq, not_true_eq_false, hf2,
                Option.some.injEq] at hp
              rw [← hp]; rfl
            · have hnil : tenant_accounts dbInfo (CallerIdNum w.chan) uo.1.TenantID = [] := by
                rcases h with h | h | ⟨uo', h1, h2⟩ | h | h
                · exact absurd h hf
                · rw [hrow] at h; exact absurd h (by simp)
                · rw [hrow] at h1
                  injection h1 with h1
                  subst h1
                  exact absurd hv h2
                · exact absurd hd (CallerIdNum_not_digits _ h)
                · unfold tenant_accounts
                  rw [List.filter_eq_nil_iff]
                  intro u hu
                  have := h uo hrow u hu
                  simp only [Bool.and_eq_true, decide_eq_true_eq, Cell.int.injEq, not_and]
                  exact this
              simp only [hf, if_false, hrow, hv, if_true, hd, ne_eq, not_true_eq_false, hf2,
                hnil, List.head?_nil, Option.some.injEq] at hp
              rw [← hp]; rfl
          · simp only [hf, if_false, hrow, hv, if_true, hd, ne_eq, not_false_eq_true,
              Option.some.injEq] at hp
            rw [← hp]; rfl
        · simp only [hf, if_false, hrow, hv, Option.some.injEq] at hp
          rw [← hp]; rfl
  cases hres : is_trunked_asp_account w dbInfo with
  | none => rw [is_trunked_asp_account_eq] at hres; exact absurd hres (by simp)
  | some p => exact ⟨p.1, p.2, rfl, hchan p hres, by rw [hchan p hres]⟩

/-- Scenario of C13: account "100" has the option on; a caller id with a letter,
or one that names an account of another tenant ("300", also written "0300"),
leaves the account id "100". -/
theorem C13_account_unchanged_witness :
    (∃ c ∈ (world_calling "100" "20a").chan.cid_num.data, isdigit c = false)
      ∧ (∃ r w', is_trunked_asp_account (world_calling "100" "20a") db_trunk = some (r, w')
          ∧ w'.chan = (world_calling "100" "20a").chan
          ∧ w'.chan.accountcode = (world_calling "100" "20a").chan.accountcode)
      ∧ (is_trunked_asp_account (world_calling "100" "300") db_trunk).map
          (fun p => p.2.chan.accountcode) = some "100"
      ∧ (is_trunked_asp_account (world_calling "100" "0300") db_trunk).map
          (fun p => p.2.chan.accountcode) = some "100" :=
  ⟨⟨'a', by decide, by decide⟩,
    C13_account_unchanged (world_calling "100" "20a") db_trunk
      (Or.inr (Or.inr (Or.inr (Or.inl (Or.inr (Or.inr ⟨'a', by decide, by decide⟩)))))),
    by decide, by decide⟩

/-- Claim C14, as amended: when neither lookup fails, the option is on for the
account, and the caller id number is valid, non-empty, all digits and, read as a
number, the id of an account of the same tenant, `is_trunked_asp_account`
returns 0 and replaces the account id of the channel by the id of a `users` row
of the original account's tenant whose id is that number; nothing else on the
channel changes.  The new account id is the caller id number itself when every
such row writes its id as the caller id does. -/
theorem C14_account_replaced (w : World) (dbInfo : database_configuration)
    (uo : UsersRow × OptionsRow)
    (hok : dbInfo.failing (.trunk_asp_option w.chan.accountcode) = false)
    (hrow : flags_row dbInfo w.chan.accountcode = some uo)
    (hflag : uo.2.cidIsAcode = 1)
    (hvalid : w.chan.cid_num_valid = true) (hne : w.chan.cid_num ≠ "")
    (hdigits : ∀ c ∈ w.chan.cid_num.data, isdigit c = true)
    (hok2 : dbInfo.failing (.tenant_account w.chan.cid_num (Cell.int uo.1.TenantID)) = false)
    (hacct : ∃ u ∈ dbInfo.users, sql_number u.UserID = sql_number w.chan.cid_num
      ∧ u.TenantID = uo.1.TenantID) :
    ∃ w' u, is_trunked_asp_account w dbInfo = some (0, w')
      ∧ u ∈ dbInfo.users ∧ sql_number u.UserID = sql_number w.chan.cid_num
      ∧ u.TenantID = uo.1.TenantID
      ∧ w'.chan = { w.chan with accountcode := u.UserID }
      ∧ ((∀ u' ∈ dbInfo.users, u'.TenantID = uo.1.TenantID →
            sql_number u'.UserID = sql_number w.chan.cid_num → u'.UserID = w.chan.cid_num) →
          w'.chan = { w.chan with accountcode := w.chan.cid_num }) := by
  have hcid := CallerIdNum_valid w.chan hvalid hne
  have hd : is_string_digits w.chan.cid_num = 0 := by
    rw [is_string_digits_eq_zero]
    exact ⟨fun h => hne (String.ext h), hdigits⟩
  obtain ⟨u0, hu0, hid0, ht0⟩ := hacct
  have hmem : u0 ∈ tenant_accounts dbInfo w.chan.cid_num uo.1.TenantID := by
    unfold tenant_accounts
    rw [List.mem_filter]
    exact ⟨hu0, by simp [hid0, ht0]⟩
  cases ht : tenant_accounts dbInfo w.chan.cid_num uo.1.TenantID with
  | nil => rw [ht] at hmem; exact absurd hmem (List.not_mem_nil _)
  | cons u us =>
    have hu : u ∈ tenant_accounts dbInfo w.chan.cid_num uo.1.TenantID := by
      rw [ht]; exact List.mem_cons_self _ _
    unfold tenant_accounts at hu
    rw [List.mem_filter] at hu
    obtain ⟨hu1, hu2⟩ := hu
    simp only [Bool.and_eq_true, decide_eq_true_eq, Cell.int.injEq] at hu2
    rw [is_trunked_asp_account_eq]
    simp only [hok, Bool.false_eq_true, if_false, hrow, hflag, if_true, hd, ne_eq,
      not_true_eq_false, hcid, hok2, ht, List.head?_cons]
    refine ⟨_, u, rfl, hu1, hu2.1, hu2.2, ?_, ?_⟩
    · simp only [World.emit]
    · intro hone
      simp only [World.emit, hone u hu1 hu2.2 hu2.1]

/-- Scenario of C14: account "100" (tenant 1, option on) calls with caller id
"0200", which is the number of account "200" of tenant 1; the channel's account
id becomes "200".  With caller id "200" it becomes "200" as well. -/
theorem C14_account_replaced_witness :
    flags_row db_trunk (world_calling "100" "0200").chan.accountcode
        = some (⟨"100", 1⟩, ⟨"100", 1, 0, 0⟩)
      ∧ sql_number "0200" = 200 ∧ sql_number "200" = 200
      ∧ (∃ w' u, is_trunked_asp_account (world_calling "100" "0200") db_trunk = some (0, w')
          ∧ u ∈ db_trunk.users ∧ sql_number u.UserID = sql_number "0200" ∧ u.TenantID = 1
          ∧ w'.chan = { (world_calling "100" "0200").chan with accountcode := u.UserID }
          ∧ ((∀ u' ∈ db_trunk.users, u'.TenantID = 1 →
                sql_number u'.UserID = sql_number "0200" → u'.UserID = "0200") →
              w'.chan = { (world_calling "100" "0200").chan with accountcode := "0200" }))
      ∧ (is_trunked_asp_account (world_calling "100" "0200") db_trunk).map
          (fun p => (p.1, p.2.chan.accountcode)) = some (0, "200")
      ∧ (is_trunked_asp_account (world_calling "100" "200") db_trunk).map
          (fun p => (p.1, p.2.chan.accountcode)) = some (0, "200") :=
  ⟨by decide, by decide, by decide,
    C14_account_replaced (world_calling "100" "0200") db_trunk (⟨"100", 1⟩, ⟨"100", 1, 0, 0⟩)
      rfl (by decide) rfl rfl (by decide) (by decide) rfl
      ⟨⟨"200", 1⟩, by decide, by decide, rfl⟩,
    by decide, by decide⟩

/-- Two accounts of the tenant whose ids are the same number: with caller id
"0200" the lookup keeps both "200" and "0200" and the channel takes the id of
the first row, "200", not the text of the caller id. -/
theorem is_trunked_asp_account_first_row :
    tenant_accounts db_trunk_two_writings "0200" 1 = [⟨"200", 1⟩, ⟨"0200", 1⟩]
      ∧ (is_trunked_asp_account (world_calling "100" "0200") db_trunk_two_writings).map
          (fun p => (p.1, p.2.chan.accountcode)) = some (0, "200") := by
  decide

/-- Claim C14 as stated fails: account "100" has the option on and the caller
id "200" is an account of its tenant, but the lookup of "200" in the tenant
fails and the account id stays "100". -/
theorem C14_counterexample :
    flags_row db_trunk_failing "100" = some (⟨"100", 1⟩, ⟨"100", 1, 0, 0⟩)
      ∧ (⟨"200", 1⟩ : UsersRow) ∈ db_trunk_failing.users
      ∧ (is_trunked_asp_account (world_calling "100" "200") db_trunk_failing).map
          (fun p => (p.1, p.2.chan.accountcode)) = some (1, "100") := by
  decide

/-- Claim C15: when the dialed number is empty or longer than 25 characters, or
the account id is empty, `app_exec` returns -1 and leaves the world as it was: no
statement sent, no hangup, no recording, channel untouched.  For a number of 1
to 25 characters the outcome of `dataSanityCheck` does not depend on the length:
it is 1 exactly for the spool channel, the special tokens and an empty account
id. -/
theorem C15_sanity_abort (host : Host) (cfg : option_global) (w : World) (data : String) :
    ((strlen data = 0 ∨ 25 < strlen data ∨ w.chan.accountcode = "") →
        app_exec host cfg w data = some (-1, w))
      ∧ ((1 ≤ strlen data ∧ strlen data ≤ 25) →
          dataSanityCheck w.chan data =
            if strcasecmp_eq "OutgoingSpoolFailed" w.chan.name
                || (strcasecmp_eq "s" data || strcasecmp_eq "h" data || strcasecmp_eq "t" data
                  || strcasecmp_eq "i" data || strcasecmp_eq "failed" data)
                || ast_strlen_zero w.chan.accountcode then 1 else 0) := by
  constructor
  · intro h
    have hs : dataSanityCheck w.chan data = 1 := by
      unfold dataSanityCheck
      rcases h with h | h | h
      · have : ast_strlen_zero data = true := by
          unfold ast_strlen_zero; unfold strlen at h
          simpa [List.isEmpty_iff] using List.length_eq_zero.mp h
        simp [this]
      · simp only [gt_iff_lt, h, if_true]
        split <;> rfl
      · have : ast_strlen_zero w.chan.accountcode = true := by rw [h]; rfl
        simp only [this, if_true]
        repeat' split
        all_goals rfl
    unfold app_exec
    rw [if_pos (by rw [hs]; decide)]
  · rintro ⟨h1, h2⟩
    unfold dataSanityCheck
    have ha : ast_strlen_zero data = false := by
      unfold ast_strlen_zero; unfold strlen at h1
      cases hd : data.data with
      | nil => rw [hd] at h1; simp at h1
      | cons c cs => rfl
    have hb : ¬ strlen data > 25 := by omega
    simp only [ha, Bool.false_eq_true, if_false, hb]
    by_cases hc : strcasecmp_eq "OutgoingSpoolFailed" w.chan.name = true
    · simp [hc]
    · by_cases hd : (strcasecmp_eq "s" data || strcasecmp_eq "h" data || strcasecmp_eq "t" data
          || strcasecmp_eq "i" data || strcasecmp_eq "failed" data) = true
      · simp only [hc, Bool.false_eq_true, if_false, hd, if_true, Bool.true_or, Bool.or_true]
      · simp only [hc, Bool.false_eq_true, if_false, hd, Bool.false_or]

/-- Scenario of C15: a number of 26 characters aborts with -1 and an untouched
world; numbers of 1 and of 25 characters pass the sanity check. -/
theorem C15_sanity_abort_witness :
    25 < strlen "00336123456780033612345678"
      ∧ app_exec scenario_host (cfg_of db_zero_groups) (world_of "42")
          "00336123456780033612345678" = some (-1, world_of "42")
      ∧ dataSanityCheck (world_of "42").chan "0" = 0
      ∧ dataSanityCheck (world_of "42").chan "0033612345678003361234567" = 0 :=
  ⟨by decide,
    (C15_sanity_abort scenario_host (cfg_of db_zero_groups) (world_of "42")
      "00336123456780033612345678").1 (Or.inr (Or.inl (by decide))),
    by decide, by decide⟩

/-- Claim C16, as amended: when the dialed number is, letter case ignored, one
of `s`, `h`, `t`, `i`, `failed`, or the channel is named `OutgoingSpoolFailed`,
`app_exec` does nothing further, leaves the world as it was, and returns -1, the
same status as for an empty account id. -/
theorem C16_special_tokens_abort (host : Host) (cfg : option_global) (w : World)
    (data : String)
    (h : strcasecmp_eq "s" data = true ∨ strcasecmp_eq "h" data = true
      ∨ strcasecmp_eq "t" data = true ∨ strcasecmp_eq "i" data = true
      ∨ strcasecmp_eq "failed" data = true
      ∨ strcasecmp_eq "OutgoingSpoolFailed" w.chan.name = true) :
    app_exec host cfg w data = some (-1, w)
      ∧ ∀ w0 : World, w0.chan.accountcode = "" → app_exec host cfg w0 data = some (-1, w0) := by
  have hs : ∀ chan : Channel,
      (strcasecmp_eq "s" data = true ∨ strcasecmp_eq "h" data = true
        ∨ strcasecmp_eq "t" data = true ∨ strcasecmp_eq "i" data = true
        ∨ strcasecmp_eq "failed" data = true
        ∨ strcasecmp_eq "OutgoingSpoolFailed" chan.name = true
        ∨ chan.accountcode = "") → dataSanityCheck chan data = 1 := by
    intro chan hc
    unfold dataSanityCheck
    split
    · rfl
    · split
      · rfl
      · split
        · rfl
        · split
          · rfl
          · rename_i h1 h2 h3 h4
            rcases hc with hc | hc | hc | hc | hc | hc | hc
            · simp [hc] at h4
            · simp [hc] at h4
            · simp [hc] at h4
            · simp [hc] at h4
            · simp [hc] at h4
            · exact absurd hc h3
            · have : ast_strlen_zero chan.accountcode = true := by rw [hc]; rfl
              simp [this]
  constructor
  · unfold app_exec
    rw [if_pos]
    rw [hs w.chan (by tauto)]
    decide
  · intro w0 h0
    unfold app_exec
    rw [if_pos]
    rw [hs w0.chan (Or.inr (Or.inr (Or.inr (Or.inr (Or.inr (Or.inr h0))))))]
    decide

/-- Scenario of C16: the token "H" makes `app_exec` return -1 with the world
untouched. -/
theorem C16_special_tokens_abort_witness :
    strcasecmp_eq "h" "H" = true
      ∧ app_exec scenario_host (cfg_of db_zero_groups) (world_of "42") "H"
          = some (-1, world_of "42") :=
  ⟨by decide,
    (C16_special_tokens_abort scenario_host (cfg_of db_zero_groups) (world_of "42") "H"
      (Or.inr (Or.inl (by decide)))).1⟩

/-- Claim C16 as stated fails: for the tokens "s" and "Failed" and for the spool
channel `app_exec` returns -1, not the success status 0; it is the status
returned for an empty account id. -/
theorem C16_counterexample :
    returned (app_exec scenario_host (cfg_of db_zero_groups) (world_of "42") "s") = some (-1)
      ∧ returned (app_exec scenario_host (cfg_of db_zero_groups) (world_of "42") "Failed")
          = some (-1)
      ∧ returned (app_exec scenario_host (cfg_of db_zero_groups)
          { (world_of "42") with chan := { (world_of "42").chan with name := "OutgoingSpoolFailed" } }
          "0033612345678") = some (-1)
      ∧ returned (app_exec scenario_host (cfg_of db_zero_groups) (world_of "") "0033612345678")
          = some (-1) := by
  decide

/-- Claim C20, as amended: block-rule matching is the `LIKE BINARY` pattern match
of the statements; for a rule prefix without `%`, `_` or backslash a user rule
or a group rule matches a number exactly when the prefix is a literal,
case-sensitive prefix of the number. -/
theorem C20_case_sensitive_matching (db : database_configuration) (P N : String)
    (hP : wildcard_free P) :
    (like_prefix_pattern N P = true ↔ P.data <+: N.data)
      ∧ (∀ a, (⟨a, P⟩ : BlockedPrefixUserRow) ∈ user_block_matches db a N
          ↔ (⟨a, P⟩ : BlockedPrefixUserRow) ∈ db.blocked_prefix_user ∧ P.data <+: N.data)
      ∧ (∀ g, (⟨g, P⟩ : BlockedPrefixGroupRow) ∈ db.blocked_prefix_group →
          P.data <+: N.data → group_blocks db g N) := by
  have h := like_prefix_pattern_literal N P hP
  refine ⟨h, ?_, ?_⟩
  · intro a
    unfold user_block_matches
    rw [List.mem_filter]
    simp only [decide_True, Bool.true_and, h]
  · intro g hg hpre
    exact ⟨⟨g, P⟩, hg, rfl, h.mpr hpre⟩

/-- Scenario of C20: the rule "ab" matches "ab123". -/
theorem C20_case_sensitive_matching_witness :
    wildcard_free "ab"
      ∧ like_prefix_pattern "ab123" "ab" = true
      ∧ returned (is_prefix_bloqued (world_of "10") "ab123" db_letters) = some 1 :=
  ⟨by decide,
    (C20_case_sensitive_matching db_letters "ab" "ab123" (by decide)).1.mpr (by decide),
    by decide⟩

/-- Claim C20 as stated fails: "AB123" begins with "ab" when letter case is
ignored, yet the rule "ab" does not match it, and account "10", whose only
rule is "ab", may dial "AB123". -/
theorem C20_counterexample :
    ("ab".data.map Char.toLower <+: "AB123".data.map Char.toLower)
      ∧ like_prefix_pattern "AB123" "ab" = false
      ∧ ¬ user_blocks db_letters "10" "AB123"
      ∧ returned (is_prefix_bloqued (world_of "10") "AB123" db_letters) = some 0 := by
  decide

/-! ### Caller id selection -/

theorem strncmp_eq_33 (s : String) : strncmp_eq s "33" 2 = true ↔ "33".data <+: s.data := by
  unfold strncmp_eq
  rw [List.prefix_iff_eq_take]
  simp only [Bool.and_eq_true, beq_iff_eq, decide_eq_true_eq]
  constructor
  · rintro ⟨h, -⟩
    exact h.symm
  · intro h
    exact ⟨h.symm, by decide⟩

theorem caller_id_selector_eq (host : Host) (w : World) (n : String)
    (db : database_configuration) :
    caller_id_selector host w n db =
      if db.failing (.rcli_option w.chan.accountcode) = true
          ∨ (∀ uo, flags_row db w.chan.accountcode = some uo → uo.2.RCLI = 0) then
        some (w.emit (.query (.rcli_option w.chan.accountcode)))
      else startRcliOnCountry host (w.emit (.query (.rcli_option w.chan.accountcode))) n db := by
  unfold caller_id_selector
  rw [isRcliOnCountryEnabled_eq, Option.some_bind]
  by_cases hf : db.failing (.rcli_option w.chan.accountcode) = true
  · simp [hf]
  · cases hrow : flags_row db w.chan.accountcode with
    | none => simp [hf]
    | some uo =>
      by_cases hv : uo.2.RCLI = 0
      · simp [hf, hv]
      · simp [hf, hv]

/-- Claim C11: the caller-id selector (`isRcliOnCountryEnabled`, then
`startRcliOnCountry` as `app_exec` runs them) leaves the channel, hence the
presented caller number and name, unchanged when the flag lookup fails or
returns no row, when the flag is 0, and when the number does not begin with the
domestic prefix `33`. -/
theorem C11_selector_frame (host : Host) (w : World) (formattedNumber : String)
    (dbInfo : database_configuration)
    (h : dbInfo.failing (.rcli_option w.chan.accountcode) = true
      ∨ flags_row dbInfo w.chan.accountcode = none
      ∨ (∃ uo, flags_row dbInfo w.chan.accountcode = some uo ∧ uo.2.RCLI = 0)
      ∨ ¬ ("33".data <+: formattedNumber.data)) :
    ∃ w', caller_id_selector host w formattedNumber dbInfo = some w'
      ∧ w'.chan = w.chan
      ∧ w'.chan.cid_num = w.chan.cid_num ∧ w'.chan.cid_name = w.chan.cid_name := by
  suffices hs : ∃ w', caller_id_selector host w formattedNumber dbInfo = some w'
      ∧ w'.chan = w.chan by
    obtain ⟨w', h1, h2⟩ := hs
    exact ⟨w', h1, h2, by rw [h2], by rw [h2]⟩
  rw [caller_id_selector_eq]
  by_cases hc : dbInfo.failing (.rcli_option w.chan.accountcode) = true
      ∨ (∀ uo, flags_row dbInfo w.chan.accountcode = some uo → uo.2.RCLI = 0)
  · rw [if_pos hc]
    exact ⟨_, rfl, rfl⟩
  · rw [if_neg hc]
    have hnd : strncmp_eq formattedNumber "33" 2 = false := by
      rcases h with h | h | ⟨uo, h1, h2⟩ | h
      · exact absurd (Or.inl h) hc
      · exact absurd (Or.inr (fun uo huo => by rw [h] at huo; exact absurd huo (by simp))) hc
      · exact absurd (Or.inr (fun uo' huo => by
          rw [h1] at huo; injection huo with huo; subst huo; exact h2)) hc
      · cases hb : strncmp_eq formattedNumber "33" 2 with
        | false => rfl
        | true => exact absurd ((strncmp_eq_33 _).mp hb) h
    unfold startRcliOnCountry
    simp only [hnd, Bool.false_eq_true, if_false]
    exact ⟨_, rfl, rfl⟩

/-- Scenario of C11: account "42" has the option on and a pool, but the number
"+33612345678" does not begin with `33`; account "7" has no flag row. -/
theorem C11_selector_frame_witness :
    ¬ ("33".data <+: "+33612345678".data)
      ∧ (∃ w', caller_id_selector scenario_host (world_of "42") "+33612345678" db_pool = some w'
          ∧ w'.chan = (world_of "42").chan
          ∧ w'.chan.cid_num = (world_of "42").chan.cid_num
          ∧ w'.chan.cid_name = (world_of "42").chan.cid_name)
      ∧ (caller_id_selector scenario_host (world_of "7") "33612345678" db_pool).map
          (fun w' => w'.chan) = some (world_of "7").chan :=
  ⟨by decide,
    C11_selector_frame scenario_host (world_of "42") "+33612345678" db_pool
      (Or.inr (Or.inr (Or.inr (by decide)))),
    by decide⟩

theorem select_pool_numbers (db : database_configuration) (a : String) (d : Int) :
    select db (.pool_numbers a d) = (pool_bucket db a d).map (fun x => [Cell.text x]) := by
  simp [select, pool_bucket, List.map_map, Function.comp_def]

theorem pool_pattern_digit (d : Int) (h0 : 0 ≤ d) (h9 : d ≤ 9) :
    ∃ ch : Char, ("0" ++ toString d ++ "%").data.map Char.toLower = ['0', ch] ++ ['%']
      ∧ (ch ≠ '%' ∧ ch ≠ '_' ∧ ch ≠ '\\') ∧ (ch.toNat : Int) = 48 + d := by
  interval_cases d
  · exact ⟨'0', by decide, by decide, by decide⟩
  · exact ⟨'1', by decide, by decide, by decide⟩
  · exact ⟨'2', by decide, by decide, by decide⟩
  · exact ⟨'3', by decide, by decide, by decide⟩
  · exact ⟨'4', by decide, by decide, by decide⟩
  · exact ⟨'5', by decide, by decide, by decide⟩
  · exact ⟨'6', by decide, by decide, by decide⟩
  · exact ⟨'7', by decide, by decide, by decide⟩
  · exact ⟨'8', by decide, by decide, by decide⟩
  · exact ⟨'9', by decide, by decide, by decide⟩

theorem pool_bucket_disjoint (db : database_configuration) (a : String) (d d' : Int)
    (h0 : 0 ≤ d) (h9 : d ≤ 9) (h0' : 0 ≤ d') (h9' : d' ≤ 9) (hne : d' ≠ d) (x : String)
    (hx : x ∈ pool_bucket db a d) : x ∉ pool_bucket db a d' := by
  intro hx'
  unfold pool_bucket at hx hx'
  simp only [List.mem_map, List.mem_filter, Bool.and_eq_true, decide_eq_true_eq] at hx hx'
  obtain ⟨r, ⟨-, -, hl⟩, rfl⟩ := hx
  obtain ⟨r', ⟨-, -, hl'⟩, hr'⟩ := hx'
  rw [hr'] at hl'
  unfold likeMatch_ci at hl hl'
  obtain ⟨ch, hp, hw, hv⟩ := pool_pattern_digit d h0 h9
  obtain ⟨ch', hp', hw', hv'⟩ := pool_pattern_digit d' h0' h9'
  rw [hp] at hl
  rw [hp'] at hl'
  have hpre := (likeMatch_literal ['0', ch] _ (by
    intro c hc
    simp only [List.mem_cons, List.mem_singleton, List.not_mem_nil, or_false] at hc
    rcases hc with rfl | rfl
    · decide
    · exact hw)).mp hl
  have hpre' := (likeMatch_literal ['0', ch'] _ (by
    intro c hc
    simp only [List.mem_cons, List.mem_singleton, List.not_mem_nil, or_false] at hc
    rcases hc with rfl | rfl
    · decide
    · exact hw')).mp hl'
  obtain ⟨t, ht⟩ := hpre
  obtain ⟨t', ht'⟩ := hpre'
  rw [← ht] at ht'
  simp only [List.cons_append, List.nil_append, List.cons.injEq, true_and] at ht'
  have : ch' = ch := ht'.1
  rw [this] at hv'
  omega

theorem MYSQL_query_ok (q : Query) (db : database_configuration) (w : World)
    (h : db.failing q = false) :
    MYSQL_query q db w
      = { numRows := (select db q).length, myres := select db q, world := w.emit (.query q) } := by
  unfold MYSQL_query
  simp [h]

/-- What the selector presents when it substitutes. -/
theorem caller_id_selector_picks (host : Host) (w : World) (formattedNumber : String)
    (dbInfo : database_configuration) (uo : UsersRow × OptionsRow) (c : Char)
    (rest : List Char)
    (hok : dbInfo.failing (.rcli_option w.chan.accountcode) = false)
    (hrow : flags_row dbInfo w.chan.accountcode = some uo) (hflag : uo.2.RCLI ≠ 0)
    (hnum : formattedNumber.data = '3' :: '3' :: c :: rest) (hdigit : isdigit c = true)
    (hok2 : dbInfo.failing
      (.pool_numbers w.chan.accountcode ((c.toNat : Int) - ('0'.toNat : Int))) = false)
    (hpool : pool_bucket dbInfo w.chan.accountcode ((c.toNat : Int) - ('0'.toNat : Int)) ≠ []) :
    ∃ w' x, caller_id_selector host w formattedNumber dbInfo = some w'
      ∧ w'.chan.cid_num = x ∧ w'.chan.cid_name = x
      ∧ x ∈ pool_bucket dbInfo w.chan.accountcode ((c.toNat : Int) - ('0'.toNat : Int))
      ∧ ∀ d' : Int, 0 ≤ d' → d' ≤ 9 → d' ≠ (c.toNat : Int) - ('0'.toNat : Int) →
          x ∉ pool_bucket dbInfo w.chan.accountcode d' := by
  have hcond : ¬ (dbInfo.failing (.rcli_option w.chan.accountcode) = true
      ∨ (∀ uo, flags_row dbInfo w.chan.accountcode = some uo → uo.2.RCLI = 0)) := by
    rintro (h | h)
    · rw [hok] at h; exact absurd h (by decide)
    · exact hflag (h uo hrow)
  have hdom : strncmp_eq formattedNumber "33" 2 = true := by
    rw [strncmp_eq_33, hnum]
    exact ⟨c :: rest, rfl⟩
  have hchar : char_at formattedNumber 2 = (c.toNat : Int) := by
    unfold char_at
    rw [hnum]
    rfl
  have hrange : 0 ≤ (c.toNat : Int) - ('0'.toNat : Int)
      ∧ (c.toNat : Int) - ('0'.toNat : Int) ≤ 9 := by
    unfold isdigit at hdigit
    simp only [decide_eq_true_eq] at hdigit
    have h0 : '0'.toNat = 48 := by decide
    have h9 : '9'.toNat = 57 := by decide
    omega
  generalize hd : (c.toNat : Int) - ('0'.toNat : Int) = d at hok2 hpool hrange ⊢
  rw [caller_id_selector_eq, if_neg hcond]
  unfold startRcliOnCountry
  simp only [hdom, if_true, hchar, hd, World.emit_chan, MYSQL_query_ok _ _ _ hok2,
    select_pool_numbers, List.length_map]
  have hlen : 0 < (pool_bucket dbInfo w.chan.accountcode d).length :=
    List.length_pos.mpr hpool
  have hn : ¬ (((pool_bucket dbInfo w.chan.accountcode d).length : Int) < 1) := by omega
  rw [if_neg hn]
  set idx := ((host.rand_after_srand (host.time % 2 ^ 32) : Int)
    % ((pool_bucket dbInfo w.chan.accountcode d).length : Int)).toNat with hidx
  have hlt : idx < (pool_bucket dbInfo w.chan.accountcode d).length := by
    have h1 := Int.emod_nonneg (host.rand_after_srand (host.time % 2 ^ 32) : Int)
      (b := ((pool_bucket dbInfo w.chan.accountcode d).length : Int)) (by omega)
    have h2 := Int.emod_lt_of_pos (host.rand_after_srand (host.time % 2 ^ 32) : Int)
      (b := ((pool_bucket dbInfo w.chan.accountcode d).length : Int)) (by omega)
    omega
  have hget : mysql_fetch_row_at
      ((pool_bucket dbInfo w.chan.accountcode d).map (fun x => [Cell.text x])) idx
      = some [Cell.text ((pool_bucket dbInfo w.chan.accountcode d).get ⟨idx, hlt⟩)] := by
    unfold mysql_fetch_row_at
    rw [List.get?_eq_getElem?, List.getElem?_map, List.getElem?_eq_getElem hlt]
    rfl
  rw [hget]
  refine ⟨_, (pool_bucket dbInfo w.chan.accountcode d).get ⟨idx, hlt⟩, rfl, rfl, rfl,
    List.get_mem _ _ _, ?_⟩
  intro d' h0' h9' hne
  exact pool_bucket_disjoint dbInfo _ d d' hrange.1 hrange.2 h0' h9' hne _ (List.get_mem _ _ _)

/-- Claim C12, as amended: when the flag lookup succeeds with RCLI on, the
number begins with `33` followed by a digit, and the pool lookup succeeds with
at least one number of the account starting with `0` and that digit, the
selector presents (as caller number and as caller name) a number of that
digit's bucket, which is in the bucket of no other digit. -/
theorem C12_selector_picks_from_bucket (host : Host) (w : World) (formattedNumber : String)
    (dbInfo : database_configuration) (uo : UsersRow × OptionsRow) (c : Char)
    (rest : List Char)
    (hok : dbInfo.failing (.rcli_option w.chan.accountcode) = false)
    (hrow : flags_row dbInfo w.chan.accountcode = some uo) (hflag : uo.2.RCLI ≠ 0)
    (hnum : formattedNumber.data = '3' :: '3' :: c :: rest) (hdigit : isdigit c = true)
    (hok2 : dbInfo.failing
      (.pool_numbers w.chan.accountcode ((c.toNat : Int) - ('0'.toNat : Int))) = false)
    (hpool : pool_bucket dbInfo w.chan.accountcode ((c.toNat : Int) - ('0'.toNat : Int)) ≠ []) :
    ∃ w' x, caller_id_selector host w formattedNumber dbInfo = some w'
      ∧ w'.chan.cid_num = x ∧ w'.chan.cid_name = x
      ∧ x ∈ pool_bucket dbInfo w.chan.accountcode ((c.toNat : Int) - ('0'.toNat : Int))
      ∧ ∀ d' : Int, 0 ≤ d' → d' ≤ 9 → d' ≠ (c.toNat : Int) - ('0'.toNat : Int) →
          x ∉ pool_bucket dbInfo w.chan.accountcode d' :=
  caller_id_selector_picks host w formattedNumber dbInfo uo c rest hok hrow hflag hnum hdigit
    hok2 hpool

/-- Scenario of C12, as amended: domestic prefix `33`, number "33612345678",
bucket "6" = {"0611110000", "0611110001"}; the selector presents one of the
two, and it is not in the bucket of "7". -/
theorem C12_selector_picks_from_bucket_witness :
    pool_bucket db_pool "42" 6 = ["0611110000", "0611110001"]
      ∧ pool_bucket db_pool "42" 7 = ["0711110000"]
      ∧ (caller_id_selector scenario_host (world_of "42") "33612345678" db_pool).map
          (fun w' => w'.chan.cid_num) = some "0611110000"
      ∧ ∃ w' x, caller_id_selector scenario_host (world_of "42") "33612345678" db_pool = some w'
          ∧ w'.chan.cid_num = x ∧ w'.chan.cid_name = x
          ∧ x ∈ pool_bucket db_pool (world_of "42").chan.accountcode
              (('6'.toNat : Int) - ('0'.toNat : Int))
          ∧ ∀ d' : Int, 0 ≤ d' → d' ≤ 9 → d' ≠ ('6'.toNat : Int) - ('0'.toNat : Int) →
              x ∉ pool_bucket db_pool (world_of "42").chan.accountcode d' :=
  ⟨by decide, by decide, by decide,
    C12_selector_picks_from_bucket scenario_host (world_of "42") "33612345678" db_pool
      (⟨"42", 1⟩, ⟨"42", 0, 0, 1⟩) '6' "12345678".data rfl (by decide) (by decide) (by decide)
      (by decide) rfl (by decide)⟩

/-- Claim C12 as stated fails: with the option on and the pool numbers
"+33611110000" and "+33611110001", the number "+33612345678" does not begin with
`33`; no pool lookup is made and the caller number stays "0140000000", which is
neither of the two. -/
theorem C12_counterexample :
    flags_row db_pool "42" = some (⟨"42", 1⟩, ⟨"42", 0, 0, 1⟩)
      ∧ (⟨"+33611110000", "42"⟩ : DidRow) ∈ db_pool.dids
      ∧ (⟨"+33611110001", "42"⟩ : DidRow) ∈ db_pool.dids
      ∧ (caller_id_selector scenario_host (world_calling "42" "0140000000") "+33612345678"
          db_pool).map (fun w' => (w'.chan.cid_num, w'.trace))
        = some ("0140000000", [Event.query (.rcli_option "42")])
      ∧ pool_bucket db_pool "42" 6 = ["0611110000", "0611110001"] := by
  decide

/-! ### The order and the effects of the steps -/

theorem caller_id_selector_trace (host : Host) (w : World) (n : String)
    (db : database_configuration) (w' : World)
    (h : caller_id_selector host w n db = some w') :
    w'.chan.accountcode = w.chan.accountcode ∧ w'.chan.name = w.chan.name
      ∧ ∃ l, w'.trace = w.trace ++ Event.query (.rcli_option w.chan.accountcode) :: l
      ∧ ∀ e ∈ l, ∃ d, e = Event.query (.pool_numbers w.chan.accountcode d) := by
  rw [caller_id_selector_eq] at h
  split at h
  · simp only [Option.some.injEq] at h
    subst h
    exact ⟨rfl, rfl, [], by simp [World.emit], by simp⟩
  · obtain ⟨h1, h2, l, h3, h4⟩ := startRcliOnCountry_trace _ _ _ _ _ h
    refine ⟨h1, h2, l, ?_, h4⟩
    rw [h3]
    simp [World.emit]

theorem Run_facts (host : Host) (cfg : option_global) (w : World) (data n : String)
    (w2 w3 w8 : World) (blocked : Int) (hrun : Run host cfg w data n w2 w3 w8 blocked) :
    ∃ (l1 l2 lh l3 lr l4 : List Event) (w6 : World),
      w2.trace = w.trace ++ Event.query (.translation_rule data)
          :: Event.query (.trunk_asp_option w.chan.accountcode) :: l1
      ∧ (∀ e ∈ l1, ∃ c t, e = Event.query (.tenant_account c t))
      ∧ w2.chan.name = w.chan.name
      ∧ w3.chan = w2.chan
      ∧ w3.trace = w2.trace ++ Event.query (.group_count w2.chan.accountcode) :: l2
      ∧ (∀ e ∈ l2, e = Event.query (.blocking_group_count w2.chan.accountcode n)
          ∨ e = Event.query (.user_block_rules w2.chan.accountcode n))
      ∧ (∀ e ∈ lh, e = Event.softhangup w2.chan.name 11)
      ∧ (blocked = 0 → lh = [])
      ∧ w6.chan = w2.chan
      ∧ w6.trace = w3.trace ++ lh
          ++ Event.query (.group_monitored_count w2.chan.accountcode) :: l3 ++ lr
      ∧ (∀ e ∈ l3, e = Event.query (.user_monitored w2.chan.accountcode))
      ∧ (∀ e ∈ lr, ∃ app d, e = Event.pbx_exec app d)
      ∧ caller_id_selector host w6 n cfg.dbCredentials = some w8
      ∧ w8.chan.accountcode = w2.chan.accountcode
      ∧ w8.chan.name = w2.chan.name
      ∧ w8.trace = w6.trace ++ Event.query (.rcli_option w2.chan.accountcode) :: l4
      ∧ (∀ e ∈ l4, ∃ d, e = Event.query (.pool_numbers w2.chan.accountcode d)) := by
  obtain ⟨w1, w5, w6, r2, m, h1, -, h2, h3, h5, h6, h8⟩ := hrun
  have t1 := get_international_number_trace _ _ _ _ _ h1
  obtain ⟨t2n, -, -, l1, t2t, t2l⟩ := is_trunked_asp_account_trace _ _ _ _ h2
  obtain ⟨t3c, l2, t3t, t3l⟩ := is_prefix_bloqued_trace _ _ _ _ _ h3
  obtain ⟨thc, lh0, tht, thl⟩ := forceHangup_trace host w3.chan.name w3
  -- the world handed to the monitoring step
  generalize hw4 : (if blocked ≠ 0 then (forceHangup host w3.chan.name w3).2 else w3) = w4 at h5
  obtain ⟨lh, hw4c, hw4t, hlh, hlh0⟩ :
      ∃ lh, w4.chan = w3.chan ∧ w4.trace = w3.trace ++ lh
        ∧ (∀ e ∈ lh, e = Event.softhangup w3.chan.name 11) ∧ (blocked = 0 → lh = []) := by
    by_cases hb : blocked = 0
    · simp only [hb, ne_eq, not_true_eq_false, if_false] at hw4
      subst hw4
      exact ⟨[], rfl, by simp, by simp, fun _ => rfl⟩
    · simp only [hb, ne_eq, not_false_eq_true, if_true] at hw4
      subst hw4
      exact ⟨lh0, thc, tht, thl, fun h => absurd h hb⟩
  obtain ⟨t5c, l3, t5t, t5l⟩ := isCallMonitored_trace _ _ _ _ h5
  obtain ⟨lr, t6c, t6t, t6l⟩ : ∃ lr, w6.chan = w5.chan ∧ w6.trace = w5.trace ++ lr
      ∧ ∀ e ∈ lr, ∃ app d, e = Event.pbx_exec app d := by
    by_cases hm : m = 0
    · simp only [hm, ne_eq, not_true_eq_false, if_false, Option.some.injEq] at h6
      subst h6
      exact ⟨[], rfl, by simp, by simp⟩
    · simp only [hm, ne_eq, not_false_eq_true, if_true] at h6
      obtain ⟨c1, lr, c2, c3⟩ := recordCall_trace _ _ _ _ h6
      exact ⟨lr, c1, c2, c3⟩
  obtain ⟨t8a, t8n, l4, t8t, t8l⟩ := caller_id_selector_trace _ _ _ _ _ h8
  have hc4 : w4.chan = w2.chan := by rw [hw4c, t3c]
  have hc6 : w6.chan = w2.chan := by rw [t6c, t5c, hc4]
  rw [hc4] at t5t t5l
  rw [t3c] at hlh
  rw [hc6] at t8a t8n t8t t8l
  subst t1
  refine ⟨l1, l2, lh, l3, lr, l4, w6, ?_, t2l, t2n, t3c, t3t, t3l, hlh, hlh0, hc6, ?_, t5l, t6l,
    h8, t8a, t8n, t8t, t8l⟩
  · rw [t2t]; simp [World.emit]
  · rw [t6t, t5t, hw4t]

theorem returned_is_prefix_bloqued_congr (w w0 : World) (n : String)
    (db : database_configuration) (h : w0.chan.accountcode = w.chan.accountcode) :
    returned (is_prefix_bloqued w0 n db) = returned (is_prefix_bloqued w n db) := by
  rw [is_prefix_bloqued_value, is_prefix_bloqued_value, h]

theorem returned_isCallMonitored_congr (w w0 : World) (db : database_configuration)
    (h : w0.chan.accountcode = w.chan.accountcode) :
    returned (isCallMonitored w0 db) = returned (isCallMonitored w db) := by
  rw [isCallMonitored_value, isCallMonitored_value, h]

theorem is_prefix_bloqued_zero_or_one (w : World) (n : String) (db : database_configuration)
    (b : Int) (h : returned (is_prefix_bloqued w n db) = some b) : b = 0 ∨ b = 1 := by
  rw [is_prefix_bloqued_value] at h
  simp only [Option.some.injEq] at h
  rw [← h]
  repeat' split
  all_goals simp

theorem forceHangup_emits (host : Host) (name : String) (w : World)
    (hn : ast_strlen_zero name = false) (he : host.channel_exists name = true) :
    (forceHangup host name w).2.trace = w.trace ++ [Event.softhangup name 11] := by
  unfold forceHangup
  simp [hn, he, World.emit]

theorem recordCall_emits (host : Host) (w : World) (conf : option_configuration) (w' : World)
    (h : recordCall host w conf = some w')
    (hf : host.findapp "MixMonitor" = true ∨ host.findapp "Monitor" = true) :
    ∃ app d, w'.trace = w.trace ++ [Event.pbx_exec app d] := by
  unfold recordCall at h
  repeat' split at h
  all_goals first
    | (simp at h; done)
    | (simp_all; done)
    | (simp at h
       obtain ⟨-, rfl⟩ := h
       exact ⟨_, _, rfl⟩)

theorem Run_effects (host : Host) (cfg : option_global) (w : World) (data n : String)
    (w2 w3 w8 : World) (blocked : Int) (hrun : Run host cfg w data n w2 w3 w8 blocked) :
    returned (get_international_number data cfg.dbCredentials w) = some n
      ∧ (∀ w1, get_international_number data cfg.dbCredentials w = some (n, w1) →
          (is_trunked_asp_account w1 cfg.dbCredentials).map (fun p => p.2.chan.accountcode)
            = some w2.chan.accountcode)
      ∧ (∀ w0 : World, w0.chan.accountcode = w2.chan.accountcode →
          returned (is_prefix_bloqued w0 n cfg.dbCredentials) = some blocked)
      ∧ ∃ (lh l3 lr l4 : List Event) (w6 : World) (m : Int),
          w6.chan = w2.chan
          ∧ w6.trace = w3.trace ++ lh
              ++ Event.query (.group_monitored_count w2.chan.accountcode) :: l3 ++ lr
          ∧ (blocked = 0 → lh = [])
          ∧ (blocked ≠ 0 → ast_strlen_zero w2.chan.name = false →
              host.channel_exists w2.chan.name = true →
              lh = [Event.softhangup w2.chan.name 11])
          ∧ (∀ w0 : World, w0.chan.accountcode = w2.chan.accountcode →
              returned (isCallMonitored w0 cfg.dbCredentials) = some m)
          ∧ (m = 0 → lr = [])
          ∧ (m ≠ 0 → (host.findapp "MixMonitor" = true ∨ host.findapp "Monitor" = true) →
              ∃ app d, lr = [Event.pbx_exec app d])
          ∧ caller_id_selector host w6 n cfg.dbCredentials = some w8
          ∧ w8.trace = w6.trace ++ Event.query (.rcli_option w2.chan.accountcode) :: l4 := by
  obtain ⟨w1, w5, w6, r2, m, h1, -, h2, h3, h5, h6, h8⟩ := hrun
  obtain ⟨t3c, l2, t3t, -⟩ := is_prefix_bloqued_trace _ _ _ _ _ h3
  obtain ⟨thc, -, -, -⟩ := forceHangup_trace host w3.chan.name w3
  generalize hw4 : (if blocked ≠ 0 then (forceHangup host w3.chan.name w3).2 else w3) = w4 at h5
  obtain ⟨lh, hw4c, hw4t, hlh0, hlh1⟩ :
      ∃ lh, w4.chan = w3.chan ∧ w4.trace = w3.trace ++ lh ∧ (blocked = 0 → lh = [])
        ∧ (blocked ≠ 0 → ast_strlen_zero w3.chan.name = false →
            host.channel_exists w3.chan.name = true →
            lh = [Event.softhangup w3.chan.name 11]) := by
    by_cases hb : blocked = 0
    · simp only [hb, ne_eq, not_true_eq_false, if_false] at hw4
      subst hw4
      exact ⟨[], rfl, by simp, fun _ => rfl, fun h _ _ => absurd hb h⟩
    · simp only [hb, ne_eq, not_false_eq_true, if_true] at hw4
      subst hw4
      by_cases hn : ast_strlen_zero w3.chan.name = false ∧ host.channel_exists w3.chan.name = true
      · exact ⟨[Event.softhangup w3.chan.name 11], thc, forceHangup_emits _ _ _ hn.1 hn.2,
          fun h => absurd h hb, fun _ _ _ => rfl⟩
      · obtain ⟨-, l, hl, -⟩ := forceHangup_trace host w3.chan.name w3
        exact ⟨l, thc, hl, fun h => absurd h hb, fun _ h1 h2 => absurd ⟨h1, h2⟩ hn⟩
  obtain ⟨t5c, l3, t5t, -⟩ := isCallMonitored_trace _ _ _ _ h5
  obtain ⟨lr, t6c, t6t, hlr0, hlr1⟩ : ∃ lr, w6.chan = w5.chan ∧ w6.trace = w5.trace ++ lr
      ∧ (m = 0 → lr = [])
      ∧ (m ≠ 0 → (host.findapp "MixMonitor" = true ∨ host.findapp "Monitor" = true) →
          ∃ app d, lr = [Event.pbx_exec app d]) := by
    by_cases hm : m = 0
    · simp only [hm, ne_eq, not_true_eq_false, if_false, Option.some.injEq] at h6
      subst h6
      exact ⟨[], rfl, by simp, fun _ => rfl, fun h _ => absurd hm h⟩
    · simp only [hm, ne_eq, not_false_eq_true, if_true] at h6
      obtain ⟨c1, -, -, -⟩ := recordCall_trace _ _ _ _ h6
      by_cases hf : host.findapp "MixMonitor" = true ∨ host.findapp "Monitor" = true
      · obtain ⟨app, d, hd⟩ := recordCall_emits _ _ _ _ h6 hf
        exact ⟨[Event.pbx_exec app d], c1, hd, fun h => absurd h hm, fun _ _ => ⟨app, d, rfl⟩⟩
      · obtain ⟨-, l, hl, -⟩ := recordCall_trace _ _ _ _ h6
        exact ⟨l, c1, hl, fun h => absurd h hm, fun _ h => absurd h hf⟩
  obtain ⟨-, -, l4, t8t, -⟩ := caller_id_selector_trace _ _ _ _ _ h8
  have hc4 : w4.chan = w2.chan := by rw [hw4c, t3c]
  have hc6 : w6.chan = w2.chan := by rw [t6c, t5c, hc4]
  rw [t3c] at hlh1
  rw [hc4] at t5t
  rw [hc6] at t8t
  refine ⟨by unfold returned; rw [h1]; rfl, ?_, ?_, lh, l3, lr, l4, w6, m, hc6, ?_, hlh0, hlh1,
    ?_, hlr0, hlr1, h8, t8t⟩
  · intro w1' h1'
    rw [h1] at h1'
    simp only [Option.some.injEq, Prod.mk.injEq, true_and] at h1'
    subst h1'
    rw [h2]; rfl
  · intro w0 hw0
    rw [returned_is_prefix_bloqued_congr w2 w0 n _ hw0]
    unfold returned; rw [h3]; rfl
  · rw [t6t, t5t, hw4t]
  · intro w0 hw0
    rw [returned_isCallMonitored_congr w4 w0 _ (by rw [hw0, hc4])]
    unfold returned; rw [h5]; rfl

/-- Claim C17, as amended: in a run of `app_exec` that passes the sanity check
the new events are five consecutive runs of steps, each once, in the order
number normaliser, account resolver, block-list evaluator, monitoring resolver,
caller-id selector; each run opens with the first statement of its step, the
translation-rule statement coming before the account-resolution statements. -/
theorem C17_step_order (host : Host) (cfg : option_global) (w : World) (data : String)
    (r : Int) (w' : World) (h0 : dataSanityCheck w.chan data = 0)
    (h : app_exec host cfg w data = some (r, w')) :
    ∃ t0 t1 t2 t3 t4 : List Event,
      w'.trace = w.trace ++ (t0 ++ t1 ++ t2 ++ t3 ++ t4)
      ∧ step_run 0 (.query (.translation_rule data)) t0
      ∧ step_run 1 (.query (.trunk_asp_option w.chan.accountcode)) t1
      ∧ step_run 2 (.query (.group_count w'.chan.accountcode)) t2
      ∧ step_run 3 (.query (.group_monitored_count w'.chan.accountcode)) t3
      ∧ step_run 4 (.query (.rcli_option w'.chan.accountcode)) t4 := by
  obtain ⟨-, n, w2, w3, blocked, hrun⟩ := app_exec_some host cfg w data r w' h0 h
  obtain ⟨l1, l2, lh, l3, lr, l4, w6, f1, f2, -, -, f5, f6, f7, -, -, f10, f11, f12, -, f14, -,
    f16, f17⟩ := Run_facts host cfg w data n w2 w3 w' blocked hrun
  rw [f14]
  refine ⟨[.query (.translation_rule data)],
    .query (.trunk_asp_option w.chan.accountcode) :: l1,
    .query (.group_count w2.chan.accountcode) :: (l2 ++ lh),
    .query (.group_monitored_count w2.chan.accountcode) :: (l3 ++ lr),
    .query (.rcli_option w2.chan.accountcode) :: l4, ?_, ⟨[], rfl, by simp⟩, ⟨l1, rfl, ?_⟩,
    ⟨_, rfl, ?_⟩, ⟨_, rfl, ?_⟩, ⟨l4, rfl, ?_⟩⟩
  · rw [f16, f10, f5, f1]
    simp
  · intro e he
    obtain ⟨c, t, rfl⟩ := f2 e he
    exact ⟨rfl, by simp⟩
  · intro e he
    rcases List.mem_append.mp he with he | he
    · rcases f6 e he with rfl | rfl <;> exact ⟨rfl, by simp⟩
    · rw [f7 e he]; exact ⟨rfl, by simp⟩
  · intro e he
    rcases List.mem_append.mp he with he | he
    · rw [f11 e he]; exact ⟨rfl, by simp⟩
    · obtain ⟨app, d, rfl⟩ := f12 e he
      exact ⟨rfl, by simp⟩
  · intro e he
    obtain ⟨d, rfl⟩ := f17 e he
    exact ⟨rfl, by simp⟩

/-- Scenario of C17: account "100" calls "0033612345678" with caller id "200";
the run is made of the five step runs in the order of the code. -/
theorem C17_step_order_witness :
    dataSanityCheck (world_calling "100" "200").chan "0033612345678" = 0
      ∧ app_exec scenario_host (cfg_of db_trunk) (world_calling "100" "200") "0033612345678"
        = some (0, final_world scenario_host (cfg_of db_trunk) (world_calling "100" "200")
            "0033612345678")
      ∧ ∃ t0 t1 t2 t3 t4 : List Event,
        (final_world scenario_host (cfg_of db_trunk) (world_calling "100" "200")
            "0033612345678").trace
          = (world_calling "100" "200").trace ++ (t0 ++ t1 ++ t2 ++ t3 ++ t4)
        ∧ step_run 0 (.query (.translation_rule "0033612345678")) t0
        ∧ step_run 1 (.query (.trunk_asp_option (world_calling "100" "200").chan.accountcode)) t1
        ∧ step_run 2 (.query (.group_count (final_world scenario_host (cfg_of db_trunk)
            (world_calling "100" "200") "0033612345678").chan.accountcode)) t2
        ∧ step_run 3 (.query (.group_monitored_count (final_world scenario_host
            (cfg_of db_trunk) (world_calling "100" "200") "0033612345678").chan.accountcode)) t3
        ∧ step_run 4 (.query (.rcli_option (final_world scenario_host (cfg_of db_trunk)
            (world_calling "100" "200") "0033612345678").chan.accountcode)) t4 :=
  ⟨by decide, by decide,
    C17_step_order scenario_host (cfg_of db_trunk) (world_calling "100" "200") "0033612345678"
      0 _ (by decide) (by decide)⟩

/-- Claim C17 as stated fails: in the run of account "100" with caller id "200"
the translation-rule statement is sent first, before the two statements of the
account resolver. -/
theorem C17_counterexample :
    (app_exec scenario_host (cfg_of db_trunk) (world_calling "100" "200")
        "0033612345678").map (fun p => p.2.trace)
      = some [Event.query (.translation_rule "0033612345678"),
          Event.query (.trunk_asp_option "100"),
          Event.query (.tenant_account "200" (Cell.int 1)),
          Event.query (.group_count "200"),
          Event.query (.blocking_group_count "200" "0033612345678"),
          Event.query (.user_block_rules "200" "0033612345678"),
          Event.query (.group_monitored_count "200"),
          Event.query (.user_monitored "200"),
          Event.query (.rcli_option "200")] := by
  decide

theorem startRcliOnCountry_queries (host : Host) (w : World) (n : String)
    (db : database_configuration) (w' : World)
    (h : startRcliOnCountry host w n db = some w') (hdom : strncmp_eq n "33" 2 = true) :
    w'.trace = w.trace ++ [Event.query
      (.pool_numbers w.chan.accountcode (char_at n 2 - ('0'.toNat : Int)))] := by
  unfold startRcliOnCountry at h
  simp only [MYSQL_query_world, hdom, if_true] at h
  repeat' split at h
  all_goals first
    | (simp at h; done)
    | (simp at h
       subst h
       simp [World.emit])

/-- Claim C19: in a run of `app_exec` that passes the sanity check, the account
id `B` left by the resolver is the one on the channel at the end.  The
block-list, monitoring and caller-id steps each send their opening statement
(`group_count`, `group_monitored_count`, `rcli_option`) with `B`, and
`startRcliOnCountry`, when the option RCLI is read as on for `B` and the number
begins with `33`, sends the pool statement with `B`; every statement of these
steps is about `B`, and none is about the original account `A` when the resolver
remapped `A` to `B`.  The run returns 0 whatever the resolver returned, and a
soft hangup is requested only when the block-list evaluation of `B` (on any
world whose channel has account id `B`) returns 1. -/
theorem C19_resolved_account_used (host : Host) (cfg : option_global) (w : World)
    (data : String) (r : Int) (w' : World) (h0 : dataSanityCheck w.chan data = 0)
    (h : app_exec host cfg w data = some (r, w')) :
    r = 0
      ∧ ∃ (n : String) (t : List Event),
        returned (get_international_number data cfg.dbCredentials w) = some n
        ∧ (∀ w1, get_international_number data cfg.dbCredentials w = some (n, w1) →
            (is_trunked_asp_account w1 cfg.dbCredentials).map (fun p => p.2.chan.accountcode)
              = some w'.chan.accountcode)
        ∧ w'.trace = w.trace ++ t
        ∧ (∀ q, Event.query q ∈ t → 2 ≤ (Event.query q).step →
            q.accountCode = some w'.chan.accountcode)
        ∧ (w.chan.accountcode ≠ w'.chan.accountcode →
            ∀ q, Event.query q ∈ t → 2 ≤ (Event.query q).step →
              q.accountCode ≠ some w.chan.accountcode)
        ∧ (∀ name cause, Event.softhangup name cause ∈ t →
            ∀ w0 : World, w0.chan.accountcode = w'.chan.accountcode →
              returned (is_prefix_bloqued w0 n cfg.dbCredentials) = some 1)
        ∧ Event.query (.group_count w'.chan.accountcode) ∈ t
        ∧ Event.query (.group_monitored_count w'.chan.accountcode) ∈ t
        ∧ Event.query (.rcli_option w'.chan.accountcode) ∈ t
        ∧ (∀ uo, cfg.dbCredentials.failing (.rcli_option w'.chan.accountcode) = false →
            flags_row cfg.dbCredentials w'.chan.accountcode = some uo → uo.2.RCLI ≠ 0 →
            strncmp_eq n "33" 2 = true →
            Event.query (.pool_numbers w'.chan.accountcode
              (char_at n 2 - ('0'.toNat : Int))) ∈ t) := by
  obtain ⟨hr, n, w2, w3, blocked, hrun⟩ := app_exec_some host cfg w data r w' h0 h
  obtain ⟨l1, l2, lh, l3, lr, l4, w6, f1, f2, -, -, f5, f6, f7, f8, f9, f10, f11, f12, f13, f14,
    -, f16, f17⟩ := Run_facts host cfg w data n w2 w3 w' blocked hrun
  obtain ⟨e1, e2, e3, -⟩ := Run_effects host cfg w data n w2 w3 w' blocked hrun
  have htrace : w'.trace = w.trace ++ (Event.query (.translation_rule data)
      :: Event.query (.trunk_asp_option w.chan.accountcode) :: l1
      ++ Event.query (.group_count w2.chan.accountcode) :: l2 ++ lh
      ++ Event.query (.group_monitored_count w2.chan.accountcode) :: l3 ++ lr
      ++ Event.query (.rcli_option w2.chan.accountcode) :: l4) := by
    rw [f16, f10, f5, f1]
    simp
  have hq : ∀ q, Event.query q ∈ (Event.query (.translation_rule data)
      :: Event.query (.trunk_asp_option w.chan.accountcode) :: l1
      ++ Event.query (.group_count w2.chan.accountcode) :: l2 ++ lh
      ++ Event.query (.group_monitored_count w2.chan.accountcode) :: l3 ++ lr
      ++ Event.query (.rcli_option w2.chan.accountcode) :: l4) →
      2 ≤ (Event.query q).step → q.accountCode = some w2.chan.accountcode := by
    intro q hq hstep
    simp only [List.cons_append, List.append_assoc, List.mem_cons, List.mem_append,
      Event.query.injEq] at hq
    rcases hq with rfl | rfl | hq | rfl | hq | hq | rfl | hq | hq | rfl | hq
    · simp [Event.step] at hstep
    · simp [Event.step] at hstep
    · obtain ⟨c, t, hc⟩ := f2 _ hq
      injection hc with hc
      subst hc
      simp [Event.step] at hstep
    · rfl
    · rcases f6 _ hq with hc | hc <;> (injection hc with hc; subst hc; rfl)
    · have := f7 _ hq
      simp at this
    · rfl
    · have hc := f11 _ hq
      injection hc with hc
      subst hc
      rfl
    · obtain ⟨app, d, hc⟩ := f12 _ hq
      simp at hc
    · rfl
    · obtain ⟨d, hc⟩ := f17 _ hq
      injection hc with hc
      subst hc
      rfl
  rw [f14]
  refine ⟨hr, n, _, e1, e2, htrace, hq, ?_, ?_, by simp, by simp, by simp, ?_⟩
  · intro hne q hmem hstep hacc
    rw [hq q hmem hstep] at hacc
    injection hacc with hacc
    exact hne hacc.symm
  · intro name cause hmem w0 hw0
    have hb : blocked ≠ 0 := by
      intro hb
      have hlh := f8 hb
      subst hlh
      simp only [List.cons_append, List.append_assoc, List.mem_cons, List.mem_append,
        reduceCtorEq, false_or, List.append_nil, List.not_mem_nil] at hmem
      rcases hmem with hmem | hmem | hmem | hmem | hmem
      · obtain ⟨c, t, hc⟩ := f2 _ hmem
        simp at hc
      · rcases f6 _ hmem with hc | hc <;> simp at hc
      · have := f11 _ hmem
        simp at this
      · obtain ⟨app, d, hc⟩ := f12 _ hmem
        simp at hc
      · obtain ⟨d, hc⟩ := f17 _ hmem
        simp at hc
    have hval := e3 w0 hw0
    rcases is_prefix_bloqued_zero_or_one w0 n _ blocked hval with h | h
    · exact absurd h hb
    · rw [hval, h]
  · intro uo hok hrow hflag hdom
    have hacc6 : w6.chan.accountcode = w2.chan.accountcode := by rw [f9]
    have hcond : ¬ (cfg.dbCredentials.failing (.rcli_option w6.chan.accountcode) = true
        ∨ (∀ uo, flags_row cfg.dbCredentials w6.chan.accountcode = some uo → uo.2.RCLI = 0)) := by
      rw [hacc6]
      rintro (hc | hc)
      · rw [hok] at hc; exact absurd hc (by decide)
      · exact hflag (hc uo hrow)
    rw [caller_id_selector_eq, if_neg hcond] at f13
    have hq4 := startRcliOnCountry_queries _ _ _ _ _ f13 hdom
    rw [f16] at hq4
    simp only [World.emit, List.append_assoc, List.singleton_append, List.append_cancel_left_eq,
      List.cons.injEq, true_and, hacc6] at hq4
    rw [hq4]
    simp

/-- Scenario of C19: account "100" is remapped to "200" and calls
"33612345678"; the statements of the last three steps, the pool statement
included, are sent with "200". -/
theorem C19_resolved_account_used_witness :
    dataSanityCheck (world_calling "100" "200").chan "33612345678" = 0
      ∧ (final_world scenario_host (cfg_of db_trunk_pool) (world_calling "100" "200")
          "33612345678").chan.accountcode = "200"
      ∧ (final_world scenario_host (cfg_of db_trunk_pool) (world_calling "100" "200")
          "33612345678").trace
        = [Event.query (.translation_rule "33612345678"),
            Event.query (.trunk_asp_option "100"),
            Event.query (.tenant_account "200" (Cell.int 1)),
            Event.query (.group_count "200"),
            Event.query (.blocking_group_count "200" "33612345678"),
            Event.query (.user_block_rules "200" "33612345678"),
            Event.query (.group_monitored_count "200"),
            Event.query (.user_monitored "200"),
            Event.query (.rcli_option "200"),
            Event.query (.pool_numbers "200" 6)]
      ∧ (0 : Int) = 0
      ∧ ∃ (n : String) (t : List Event),
        returned (get_international_number "33612345678" (cfg_of db_trunk_pool).dbCredentials
          (world_calling "100" "200")) = some n
        ∧ (∀ w1, get_international_number "33612345678" (cfg_of db_trunk_pool).dbCredentials
              (world_calling "100" "200") = some (n, w1) →
            (is_trunked_asp_account w1 (cfg_of db_trunk_pool).dbCredentials).map
                (fun p => p.2.chan.accountcode)
              = some (final_world scenario_host (cfg_of db_trunk_pool) (world_calling "100" "200")
          "33612345678").chan.accountcode)
        ∧ (final_world scenario_host (cfg_of db_trunk_pool) (world_calling "100" "200")
          "33612345678").trace = (world_calling "100" "200").trace ++ t
        ∧ (∀ q, Event.query q ∈ t → 2 ≤ (Event.query q).step →
            q.accountCode = some (final_world scenario_host (cfg_of db_trunk_pool) (world_calling "100" "200")
          "33612345678").chan.accountcode)
        ∧ ((world_calling "100" "200").chan.accountcode
              ≠ (final_world scenario_host (cfg_of db_trunk_pool) (world_calling "100" "200")
          "33612345678").chan.accountcode →
            ∀ q, Event.query q ∈ t → 2 ≤ (Event.query q).step →
              q.accountCode ≠ some (world_calling "100" "200").chan.accountcode)
        ∧ (∀ name cause, Event.softhangup name cause ∈ t →
            ∀ w0 : World, w0.chan.accountcode
                = (final_world scenario_host (cfg_of db_trunk_pool) (world_calling "100" "200")
          "33612345678").chan.accountcode →
              returned (is_prefix_bloqued w0 n (cfg_of db_trunk_pool).dbCredentials) = some 1)
        ∧ Event.query (.group_count (final_world scenario_host (cfg_of db_trunk_pool) (world_calling "100" "200")
          "33612345678").chan.accountcode) ∈ t
        ∧ Event.query (.group_monitored_count (final_world scenario_host (cfg_of db_trunk_pool) (world_calling "100" "200")
          "33612345678").chan.accountcode) ∈ t
        ∧ Event.query (.rcli_option (final_world scenario_host (cfg_of db_trunk_pool) (world_calling "100" "200")
          "33612345678").chan.accountcode) ∈ t
        ∧ (∀ uo, (cfg_of db_trunk_pool).dbCredentials.failing
              (.rcli_option (final_world scenario_host (cfg_of db_trunk_pool) (world_calling "100" "200")
          "33612345678").chan.accountcode) = false →
            flags_row (cfg_of db_trunk_pool).dbCredentials
              (final_world scenario_host (cfg_of db_trunk_pool) (world_calling "100" "200")
          "33612345678").chan.accountcode = some uo →
            uo.2.RCLI ≠ 0 → strncmp_eq n "33" 2 = true →
            Event.query (.pool_numbers (final_world scenario_host (cfg_of db_trunk_pool) (world_calling "100" "200")
          "33612345678").chan.accountcode
              (char_at n 2 - ('0'.toNat : Int))) ∈ t) :=
  ⟨by decide, by decide, by decide,
    C19_resolved_account_used scenario_host (cfg_of db_trunk_pool) (world_calling "100" "200")
      "33612345678" 0 (final_world scenario_host (cfg_of db_trunk_pool) (world_calling "100" "200")
          "33612345678") (by decide) (by decide)⟩

/-- Claim C18, as amended: in a run of `app_exec` in which the block-list
evaluation of the resolved account returns 1, the hangup is requested (when the
channel is found) and the monitoring and caller-id steps still execute, with
their effects kept: a recording application is run when `isCallMonitored`
returns 1 and one is found, and the caller number and name are replaced by a
number of the pool when the selector picks one.  (The verdicts of
`is_prefix_bloqued` and `isCallMonitored` depend on the world only through the
account id of the channel, so they are stated on any world `w0` that has the
account id the run ends with.) -/
theorem C18_effects_kept (host : Host) (cfg : option_global) (w : World) (data : String)
    (r : Int) (w' : World) (n : String) (w0 : World)
    (h0 : dataSanityCheck w.chan data = 0)
    (h : app_exec host cfg w data = some (r, w'))
    (hn : returned (get_international_number data cfg.dbCredentials w) = some n)
    (hw0 : w0.chan.accountcode = w'.chan.accountcode)
    (hb : returned (is_prefix_bloqued w0 n cfg.dbCredentials) = some 1) :
    ∃ t, w'.trace = w.trace ++ t
      ∧ (ast_strlen_zero w.chan.name = false → host.channel_exists w.chan.name = true →
          Event.softhangup w.chan.name 11 ∈ t)
      ∧ Event.query (.group_monitored_count w'.chan.accountcode) ∈ t
      ∧ Event.query (.rcli_option w'.chan.accountcode) ∈ t
      ∧ (returned (isCallMonitored w0 cfg.dbCredentials) = some 1 →
          (host.findapp "MixMonitor" = true ∨ host.findapp "Monitor" = true) →
          ∃ app d, Event.pbx_exec app d ∈ t)
      ∧ (∀ (uo : UsersRow × OptionsRow) (c : Char) (rest : List Char),
          cfg.dbCredentials.failing (.rcli_option w'.chan.accountcode) = false →
          flags_row cfg.dbCredentials w'.chan.accountcode = some uo → uo.2.RCLI ≠ 0 →
          n.data = '3' :: '3' :: c :: rest → isdigit c = true →
          cfg.dbCredentials.failing (.pool_numbers w'.chan.accountcode
            ((c.toNat : Int) - ('0'.toNat : Int))) = false →
          pool_bucket cfg.dbCredentials w'.chan.accountcode
            ((c.toNat : Int) - ('0'.toNat : Int)) ≠ [] →
          w'.chan.cid_num ∈ pool_bucket cfg.dbCredentials w'.chan.accountcode
            ((c.toNat : Int) - ('0'.toNat : Int))
          ∧ w'.chan.cid_name = w'.chan.cid_num) := by
  obtain ⟨-, n', w2, w3, blocked, hrun⟩ := app_exec_some host cfg w data r w' h0 h
  obtain ⟨l1, l2, -, -, -, -, -, f1, -, f3, -, f5, -, -, -, -, -, -, -, -, f14, -, -, -⟩ :=
    Run_facts host cfg w data n' w2 w3 w' blocked hrun
  obtain ⟨e1, -, e3, lh, l3, lr, l4, w6, m, g1, g2, -, g4, g5, -, g7, g8, g9⟩ :=
    Run_effects host cfg w data n' w2 w3 w' blocked hrun
  have hnn : n' = n := by
    rw [e1] at hn
    exact Option.some.inj hn
  subst hnn
  rw [f14] at hw0 ⊢
  have hblocked : blocked = 1 := by
    have := e3 w0 hw0
    rw [hb] at this
    exact (Option.some.inj this).symm
  refine ⟨Event.query (.translation_rule data)
      :: Event.query (.trunk_asp_option w.chan.accountcode) :: l1
      ++ Event.query (.group_count w2.chan.accountcode) :: l2 ++ lh
      ++ Event.query (.group_monitored_count w2.chan.accountcode) :: l3 ++ lr
      ++ Event.query (.rcli_option w2.chan.accountcode) :: l4, ?_, ?_, by simp, by simp, ?_, ?_⟩
  · rw [g9, g2, f5, f1]
    simp
  · intro hname hex
    rw [← f3] at hname hex
    rw [g4 (by rw [hblocked]; decide) hname hex, f3]
    simp
  · intro hm hf
    have hm' := g5 w0 hw0
    rw [hm] at hm'
    have hm1 : m ≠ 0 := by
      rw [← Option.some.inj hm']; decide
    obtain ⟨app, d, hlr⟩ := g7 hm1 hf
    exact ⟨app, d, by rw [hlr]; simp⟩
  · intro uo c rest k1 k2 k3 k4 k5 k6 k7
    rw [← g1] at k1 k2 k6 k7
    obtain ⟨w'', x, p1, p2, p3, p4, -⟩ :=
      caller_id_selector_picks host w6 n' cfg.dbCredentials uo c rest k1 k2 k3 k4 k5 k6 k7
    rw [g8] at p1
    have hww := Option.some.inj p1
    rw [← hww] at p2 p3
    rw [g1] at p4
    rw [p3, p2]
    exact ⟨p4, rfl⟩

/-- Scenario of C18: account "42" is in no group, hence blocked; its monitoring
flag and its option RCLI are on.  The hangup is requested, then `MixMonitor` is
run and the caller number becomes a number of the pool. -/
theorem C18_effects_kept_witness :
    dataSanityCheck (world_calling "42" "0140000000").chan "33612345678" = 0
      ∧ returned (is_prefix_bloqued (world_calling "42" "0140000000") "33612345678"
          (cfg_of db_blocked_recorded).dbCredentials) = some 1
      ∧ ∃ t, (final_world scenario_host (cfg_of db_blocked_recorded)
            (world_calling "42" "0140000000") "33612345678").trace
          = (world_calling "42" "0140000000").trace ++ t
        ∧ (ast_strlen_zero (world_calling "42" "0140000000").chan.name = false →
            scenario_host.channel_exists (world_calling "42" "0140000000").chan.name = true →
            Event.softhangup (world_calling "42" "0140000000").chan.name 11 ∈ t)
        ∧ Event.query (.group_monitored_count (final_world scenario_host
            (cfg_of db_blocked_recorded) (world_calling "42" "0140000000")
            "33612345678").chan.accountcode) ∈ t
        ∧ Event.query (.rcli_option (final_world scenario_host
            (cfg_of db_blocked_recorded) (world_calling "42" "0140000000")
            "33612345678").chan.accountcode) ∈ t
        ∧ (returned (isCallMonitored (world_calling "42" "0140000000")
              (cfg_of db_blocked_recorded).dbCredentials) = some 1 →
            (scenario_host.findapp "MixMonitor" = true ∨ scenario_host.findapp "Monitor" = true) →
            ∃ app d, Event.pbx_exec app d ∈ t)
        ∧ (∀ (uo : UsersRow × OptionsRow) (c : Char) (rest : List Char),
            (cfg_of db_blocked_recorded).dbCredentials.failing (.rcli_option (final_world
              scenario_host (cfg_of db_blocked_recorded) (world_calling "42" "0140000000")
              "33612345678").chan.accountcode) = false →
            flags_row (cfg_of db_blocked_recorded).dbCredentials (final_world scenario_host
              (cfg_of db_blocked_recorded) (world_calling "42" "0140000000")
              "33612345678").chan.accountcode = some uo → uo.2.RCLI ≠ 0 →
            "33612345678".data = '3' :: '3' :: c :: rest → isdigit c = true →
            (cfg_of db_blocked_recorded).dbCredentials.failing (.pool_numbers (final_world
              scenario_host (cfg_of db_blocked_recorded) (world_calling "42" "0140000000")
              "33612345678").chan.accountcode ((c.toNat : Int) - ('0'.toNat : Int))) = false →
            pool_bucket (cfg_of db_blocked_recorded).dbCredentials (final_world scenario_host
              (cfg_of db_blocked_recorded) (world_calling "42" "0140000000")
              "33612345678").chan.accountcode ((c.toNat : Int) - ('0'.toNat : Int)) ≠ [] →
            (final_world scenario_host (cfg_of db_blocked_recorded)
                (world_calling "42" "0140000000") "33612345678").chan.cid_num
              ∈ pool_bucket (cfg_of db_blocked_recorded).dbCredentials (final_world
                  scenario_host (cfg_of db_blocked_recorded) (world_calling "42" "0140000000")
                  "33612345678").chan.accountcode ((c.toNat : Int) - ('0'.toNat : Int))
            ∧ (final_world scenario_host (cfg_of db_blocked_recorded)
                (world_calling "42" "0140000000") "33612345678").chan.cid_name
              = (final_world scenario_host (cfg_of db_blocked_recorded)
                (world_calling "42" "0140000000") "33612345678").chan.cid_num) :=
  ⟨by decide, by decide,
    C18_effects_kept scenario_host (cfg_of db_blocked_recorded)
      (world_calling "42" "0140000000") "33612345678" 0 _ "33612345678"
      (world_calling "42" "0140000000") (by decide) (by decide) (by decide) (by decide)
      (by decide)⟩

/-- Claim C18 as stated fails: account "42" is blocked (it is in no group) and
the hangup is requested, yet `MixMonitor` is run afterwards and the presented
caller number and name change from "0140000000" and "caller" to "0611110000". -/
theorem C18_counterexample :
    returned (is_prefix_bloqued (world_calling "42" "0140000000") "33612345678"
        db_blocked_recorded) = some 1
      ∧ (app_exec scenario_host (cfg_of db_blocked_recorded) (world_calling "42" "0140000000")
          "33612345678").map (fun p => (p.2.trace, p.2.chan.cid_num, p.2.chan.cid_name))
        = some ([Event.query (.translation_rule "33612345678"),
            Event.query (.trunk_asp_option "42"),
            Event.query (.group_count "42"),
            Event.softhangup "SIP/42-00000001" 11,
            Event.query (.group_monitored_count "42"),
            Event.query (.user_monitored "42"),
            Event.pbx_exec "MixMonitor"
              "/var/spool/asterisk/monitor/1700000000.1-20231114-221320.WAV,b,",
            Event.query (.rcli_option "42"),
            Event.query (.pool_numbers "42" 6)], "0611110000", "0611110000") := by
  decide

/-! ### The draw of the pool number -/

theorem startRcliOnCountry_draw (host : Host) (w : World) (formattedNumber : String)
    (dbInfo : database_configuration) (c : Char) (rest : List Char)
    (hnum : formattedNumber.data = '3' :: '3' :: c :: rest)
    (hok : dbInfo.failing
      (.pool_numbers w.chan.accountcode ((c.toNat : Int) - ('0'.toNat : Int))) = false)
    (hpool : pool_bucket dbInfo w.chan.accountcode ((c.toNat : Int) - ('0'.toNat : Int)) ≠ []) :
    presented host w formattedNumber dbInfo
      = (pool_bucket dbInfo w.chan.accountcode ((c.toNat : Int) - ('0'.toNat : Int))).get?
          (index_at host.rand_after_srand host.time
            (pool_bucket dbInfo w.chan.accountcode
              ((c.toNat : Int) - ('0'.toNat : Int))).length)
      ∧ (presented host w formattedNumber dbInfo).isSome = true := by
  have hdom : strncmp_eq formattedNumber "33" 2 = true := by
    rw [strncmp_eq_33, hnum]
    exact ⟨c :: rest, rfl⟩
  have hchar : char_at formattedNumber 2 = (c.toNat : Int) := by
    unfold char_at
    rw [hnum]
    rfl
  generalize hd : (c.toNat : Int) - ('0'.toNat : Int) = d at hok hpool ⊢
  unfold presented startRcliOnCountry index_at
  simp only [hdom, if_true, hchar, hd, World.emit_chan, MYSQL_query_ok _ _ _ hok,
    select_pool_numbers, List.length_map]
  have hlen : 0 < (pool_bucket dbInfo w.chan.accountcode d).length :=
    List.length_pos.mpr hpool
  have hn : ¬ (((pool_bucket dbInfo w.chan.accountcode d).length : Int) < 1) := by omega
  rw [if_neg hn]
  set idx := ((host.rand_after_srand (host.time % 2 ^ 32) : Int)
    % ((pool_bucket dbInfo w.chan.accountcode d).length : Int)).toNat with hidx
  have hlt : idx < (pool_bucket dbInfo w.chan.accountcode d).length := by
    have h1 := Int.emod_nonneg (host.rand_after_srand (host.time % 2 ^ 32) : Int)
      (b := ((pool_bucket dbInfo w.chan.accountcode d).length : Int)) (by omega)
    have h2 := Int.emod_lt_of_pos (host.rand_after_srand (host.time % 2 ^ 32) : Int)
      (b := ((pool_bucket dbInfo w.chan.accountcode d).length : Int)) (by omega)
    omega
  have hget : mysql_fetch_row_at
      ((pool_bucket dbInfo w.chan.accountcode d).map (fun x => [Cell.text x])) idx
      = some [Cell.text ((pool_bucket dbInfo w.chan.accountcode d).get ⟨idx, hlt⟩)] := by
    unfold mysql_fetch_row_at
    rw [List.get?_eq_getElem?, List.getElem?_map, List.getElem?_eq_getElem hlt]
    rfl
  rw [hget, List.get?_eq_getElem?, List.getElem?_eq_getElem hlt]
  exact ⟨rfl, rfl⟩

/-- Claim C21, as amended: the generator is seeded again on every call, from the
wall-clock time of that call. For a call to a number beginning with `33` whose
pool lookup succeeds with a non-empty pool, the number presented is the pool
entry at index `rand_after_srand (time mod 2^32) mod numRows`, where
`rand_after_srand` is the generator of the process and `time` the second of the
call: the index follows from the wall-clock time of the call alone, and another
call of the same process made in the same second for the same pool is presented
the same entry. -/
theorem C21_index_follows_clock (host1 host2 : Host) (w1 w2 : World) (n1 n2 : String)
    (dbInfo : database_configuration) (c : Char) (rest1 rest2 : List Char)
    (hprocess : host1.rand_after_srand = host2.rand_after_srand)
    (hacct : w1.chan.accountcode = w2.chan.accountcode)
    (hn1 : n1.data = '3' :: '3' :: c :: rest1) (hn2 : n2.data = '3' :: '3' :: c :: rest2)
    (hok : dbInfo.failing
      (.pool_numbers w2.chan.accountcode ((c.toNat : Int) - ('0'.toNat : Int))) = false)
    (hpool : pool_bucket dbInfo w2.chan.accountcode ((c.toNat : Int) - ('0'.toNat : Int)) ≠ []) :
    presented host2 w2 n2 dbInfo
        = (pool_bucket dbInfo w2.chan.accountcode ((c.toNat : Int) - ('0'.toNat : Int))).get?
            (index_at host2.rand_after_srand host2.time
              (pool_bucket dbInfo w2.chan.accountcode
                ((c.toNat : Int) - ('0'.toNat : Int))).length)
      ∧ (presented host2 w2 n2 dbInfo).isSome = true
      ∧ (host1.time = host2.time →
          presented host1 w1 n1 dbInfo = presented host2 w2 n2 dbInfo) := by
  obtain ⟨h2, h2some⟩ := startRcliOnCountry_draw host2 w2 n2 dbInfo c rest2 hn2 hok hpool
  refine ⟨h2, h2some, ?_⟩
  intro htime
  rw [← hacct] at hok hpool
  obtain ⟨h1, _⟩ := startRcliOnCountry_draw host1 w1 n1 dbInfo c rest1 hn1 hok hpool
  rw [h1, h2, hprocess, htime, hacct]

/-- Scenario of C21: account "42" has the pool numbers "0611110000" and
"0611110001" for the digit 6; two calls of one process in second 1700000000, to
"33612345678" and to "33698765432", are both presented the entry at index
`1700000000 mod 2`, "0611110000". -/
theorem C21_index_follows_clock_witness :
    scenario_host.rand_after_srand = (scenario_host_at 1700000000).rand_after_srand
      ∧ db_pool.failing (.pool_numbers "42" 6) = false
      ∧ pool_bucket db_pool "42" 6 = ["0611110000", "0611110001"]
      ∧ index_at scenario_host.rand_after_srand 1700000000 2 = 0
      ∧ presented (scenario_host_at 1700000000) (world_calling "42" "0140000000")
          "33698765432" db_pool = some "0611110000"
      ∧ presented scenario_host (world_of "42") "33612345678" db_pool = some "0611110000" :=
  have h := C21_index_follows_clock scenario_host (scenario_host_at 1700000000) (world_of "42")
    (world_calling "42" "0140000000") "33612345678" "33698765432" db_pool '6'
    "12345678".data "98765432".data rfl rfl rfl rfl (by decide) (by decide)
  ⟨rfl, by decide, by decide, by decide, h.1.trans (by decide),
    (h.2.2 rfl).trans (h.1.trans (by decide))⟩

/-- Claim C21 as stated fails: the second call of a process, made in second
1700000000 with the pool "0611110000", "0611110001", is presented "0611110000"
whether the first call of the process was made one second earlier (and was
presented "0611110001") or in the same second (and was presented "0611110000"
as well): the index of the second call follows from its wall-clock time. -/
theorem C21_counterexample :
    pool_bucket db_pool "42" 6 = ["0611110000", "0611110001"]
      ∧ presented (scenario_host_at 1699999999) (world_of "42") "33612345678" db_pool
          = some "0611110001"
      ∧ presented (scenario_host_at 1700000000) (world_calling "42" "0140000000")
          "33698765432" db_pool = some "0611110000"
      ∧ presented (scenario_host_at 1700000000) (world_of "42") "33612345678" db_pool
          = some "0611110000"
      ∧ index_at scenario_host.rand_after_srand 1700000000 2 = 0
      ∧ index_at scenario_host.rand_after_srand 1699999999 2 = 1 := by
  decide

/-! ### The size of the canonical number -/

/-- Claim C22 fails on the code: with the rule ("0", discard 1, "33") the dialed
number "0612345678901234567890123" passes `dataSanityCheck` with its 25
characters and `get_international_number` writes the 26 characters
"33612345678901234567890123", one more than the 26 bytes of `formattedNumber`
hold with the terminator, so `app_exec` has no defined result; with the rule
("16", discard 4, "") the dialed number "16" passes the check and the copy
starts 4 characters into a string of 2, so `get_international_number` has no
defined result. -/
theorem C22_canonical_number_overflows :
    dataSanityCheck (world_of "42").chan "0612345678901234567890123" = 0
      ∧ strlen "0612345678901234567890123" = 25
      ∧ selected_rule db_national_rule "0612345678901234567890123" = some ⟨"0", 1, "33", 1⟩
      ∧ returned (get_international_number "0612345678901234567890123" db_national_rule
          (world_of "42")) = some "33612345678901234567890123"
      ∧ strlen "33612345678901234567890123" = 26
      ∧ (app_exec scenario_host (cfg_of db_national_rule) (world_of "42")
          "0612345678901234567890123").isNone = true
      ∧ dataSanityCheck (world_of "42").chan "16" = 0
      ∧ selected_rule db_national_rule "16" = some ⟨"16", 4, "", 1⟩
      ∧ strlen "16" < 4
      ∧ (get_international_number "16" db_national_rule (world_of "42")).isNone = true
      ∧ (app_exec scenario_host (cfg_of db_national_rule) (world_of "42") "16").isNone
          = true := by
  decide

end AppOptions
